import Mathlib

/-!
Verification development for the platformer physics and procedural
level-generation core of GameMario.py.

Modelling conventions:
* pygame rectangles are integer axis-aligned boxes; we embed them as
  a structure over the integers.
* Python floats are embedded as exact rationals; float literals such
  as 0.6 are taken at their decimal value.
* `int(round(x))` in Python rounds half to even; `pyRound` mirrors that.
* Random draws are embedded as streams of naturals: a seeded stream
  (the draws produced by the `random.Random(seed)` instance handed to
  the generator) and a global stream (the draws produced by the
  process-global `random` module, used by dataclass default factories).
  Each primitive draw consumes one stream element and maps it into the
  requested range, so every concrete Python draw sequence corresponds
  to some stream.
* Cosmetic colour and style tags, which are constants at each
  construction site, are not carried.
-/

namespace GameMario

/-! ### Geometry helpers (GameMario.py lines 148-154) -/

def lerp (a b t : ℚ) : ℚ := a + (b - a) * t

def clampQ (value minimum maximum : ℚ) : ℚ := max minimum (min value maximum)

def clampZ (value minimum maximum : ℤ) : ℤ := max minimum (min value maximum)

/-- Python round (half to even) composed with int, applied to a rational. -/
def pyRound (q : ℚ) : ℤ :=
  if q - (⌊q⌋ : ℚ) < mkRat 1 2 then ⌊q⌋
  else if mkRat 1 2 < q - (⌊q⌋ : ℚ) then ⌊q⌋ + 1
  else if ⌊q⌋ % 2 = 0 then ⌊q⌋ else ⌊q⌋ + 1

/-- pygame.Rect: integer position and size. -/
structure Rect where
  x : ℤ
  y : ℤ
  w : ℤ
  h : ℤ
  deriving DecidableEq, Repr

namespace Rect

def left (r : Rect) : ℤ := r.x
def right (r : Rect) : ℤ := r.x + r.w
def top (r : Rect) : ℤ := r.y
def bottom (r : Rect) : ℤ := r.y + r.h
def centerx (r : Rect) : ℤ := r.x + r.w / 2
def centery (r : Rect) : ℤ := r.y + r.h / 2

/-- pygame collision test: strict overlap on both axes. -/
def colliderect (a b : Rect) : Bool :=
  decide (a.x < b.x + b.w) && decide (a.y < b.y + b.h) &&
  decide (a.x + a.w > b.x) && decide (a.y + a.h > b.y)

/-- pygame clip: the intersection rectangle (meaningful when colliderect holds). -/
def clip (a b : Rect) : Rect :=
  let l := max a.left b.left
  let t := max a.top b.top
  let r := min a.right b.right
  let bo := min a.bottom b.bottom
  ⟨l, t, r - l, bo - t⟩

/-- pygame inflate: grow in place around the centre. -/
def inflate (r : Rect) (dx dy : ℤ) : Rect :=
  ⟨r.x - dx / 2, r.y - dy / 2, r.w + dx, r.h + dy⟩

/-- Set the bottom edge, keeping the size. -/
def withBottom (r : Rect) (b : ℤ) : Rect := ⟨r.x, b - r.h, r.w, r.h⟩

/-- Set the top edge, keeping the size. -/
def withTop (r : Rect) (t : ℤ) : Rect := ⟨r.x, t, r.w, r.h⟩

/-- Set the right edge, keeping the size. -/
def withRight (r : Rect) (v : ℤ) : Rect := ⟨v - r.w, r.y, r.w, r.h⟩

/-- Set the left edge, keeping the size. -/
def withLeft (r : Rect) (v : ℤ) : Rect := ⟨v, r.y, r.w, r.h⟩

end Rect

/-! ### Global configuration constants (GameMario.py lines 113-138) -/

def SCREEN_WIDTH : ℤ := 960
def SCREEN_HEIGHT : ℤ := 600
def FPS : ℚ := 60
def GRAVITY : ℚ := mkRat 65 100
def PLAYER_SPEED : ℚ := 6
def PLAYER_JUMP : ℚ := mkRat (-155) 10
def MAX_FALL_SPEED : ℚ := 24
def ENEMY_DEATH_DURATION : ℚ := mkRat 35 100
def DOUBLE_JUMP_DECAY : ℚ := mkRat 9 10
def BOUNCE_VELOCITY : ℚ := -17
def MIN_BOUNCY_CHANCE : ℚ := mkRat 18 100
def MOVING_BOUNCY_CHANCE : ℚ := mkRat 28 100
def MAX_DOUBLE_JUMP_STACK : ℤ := 3
def MAX_SWORD_CHARGES : ℤ := 4
def MAX_SHIELD_CHARGES : ℤ := 3
def STOMP_PROTECT_DURATION : ℚ := mkRat 25 100

/-! ### Platform data (GameMario.py lines 213-219 and 364-382)

A single structure covers both the static Platform dataclass and the
MovingPlatform subtype; `moving` records which one it is. For static
platforms the kinematic fields keep their defaults.
-/

structure Platform where
  rect : Rect
  isBouncy : Bool := false
  bounceVelocity : ℚ := PLAYER_JUMP
  moving : Bool := false
  boundsX : ℤ × ℤ := (0, 0)
  boundsY : ℤ × ℤ := (0, 0)
  speedX : ℚ := 0
  speedY : ℚ := 0
  directionX : ℤ := 1
  directionY : ℤ := 1
  deriving DecidableEq, Repr

/-! ### Kinematic platform state and update (GameMario.py lines 364-428)

The mutable runtime state of a MovingPlatform: the rectangle, the exact
float position, and the displacement reported for the last tick.
-/

structure MovingPlatformState where
  rect : Rect
  boundsX : ℤ × ℤ
  boundsY : ℤ × ℤ
  speedX : ℚ
  speedY : ℚ
  directionX : ℤ
  directionY : ℤ
  floatX : ℚ
  floatY : ℚ
  lastMoveX : ℚ
  lastMoveY : ℚ
  deriving DecidableEq, Repr

namespace MovingPlatformState

/-- MovingPlatform.__post_init__: float position starts at the rect corner
and degenerate (0,0) bounds collapse onto the current position. -/
def init (rect : Rect) (boundsX boundsY : ℤ × ℤ) (speedX speedY : ℚ) : MovingPlatformState :=
  { rect := rect
    boundsX := if boundsX = (0, 0) then (rect.left, rect.left) else boundsX
    boundsY := if boundsY = (0, 0) then (rect.top, rect.top) else boundsY
    speedX := speedX
    speedY := speedY
    directionX := 1
    directionY := 1
    floatX := (rect.x : ℚ)
    floatY := (rect.y : ℚ)
    lastMoveX := 0
    lastMoveY := 0 }

/-- The axis advance of MovingPlatform.update: propose a new coordinate,
clamping at the travel bounds and flipping the direction there.
Returns the proposed coordinate and the new direction. -/
def axisAdvance (pos : ℚ) (size : ℤ) (bounds : ℤ × ℤ) (speed : ℚ) (dir : ℤ) (dt : ℚ) :
    ℚ × ℤ :=
  if speed ≠ 0 then
    let proposed := pos + speed * (dir : ℚ) * dt * 60
    if proposed < (bounds.1 : ℚ) then ((bounds.1 : ℚ), -dir)
    else if proposed + (size : ℚ) > (bounds.2 : ℚ) then (((bounds.2 - size : ℤ) : ℚ), -dir)
    else (proposed, dir)
  else (pos, dir)

/-- The obstacle scan of MovingPlatform.update: true when the candidate
rectangle collides with some obstacle other than the own rectangle
(the Python code skips the identical rect object). -/
def collisionFound (candidate : Rect) (own : Rect) (obstacles : List Rect) : Bool :=
  obstacles.any fun o => decide (o ≠ own) && candidate.colliderect o

/-- The x-axis advance of one tick. -/
def advanceX (p : MovingPlatformState) (dt : ℚ) : ℚ × ℤ :=
  axisAdvance p.floatX p.rect.w p.boundsX p.speedX p.directionX dt

/-- The y-axis advance of one tick. -/
def advanceY (p : MovingPlatformState) (dt : ℚ) : ℚ × ℤ :=
  axisAdvance p.floatY p.rect.h p.boundsY p.speedY p.directionY dt

/-- The candidate rectangle MovingPlatform.update tests for collisions. -/
def candidateRect (p : MovingPlatformState) (dt : ℚ) : Rect :=
  ⟨pyRound (p.advanceX dt).1, pyRound (p.advanceY dt).1, p.rect.w, p.rect.h⟩

/-- MovingPlatform.update. In the collision branch the source negates
direction_x/direction_y as they stand after the axis advance, so a
bound flip from the same tick is negated again. -/
def update (p : MovingPlatformState) (dt : ℚ) (obstacles : List Rect) : MovingPlatformState :=
  let ax := p.advanceX dt
  let ay := p.advanceY dt
  let candidate : Rect := p.candidateRect dt
  if collisionFound candidate p.rect obstacles then
    { p with
      directionX := if p.speedX ≠ 0 then -ax.2 else ax.2
      directionY := if p.speedY ≠ 0 then -ay.2 else ay.2
      lastMoveX := 0
      lastMoveY := 0
      floatX := (p.rect.x : ℚ)
      floatY := (p.rect.y : ℚ) }
  else
    { p with
      directionX := ax.2
      directionY := ay.2
      floatX := ax.1
      floatY := ay.1
      rect := ⟨candidate.x, candidate.y, p.rect.w, p.rect.h⟩
      lastMoveX := ax.1 - p.floatX
      lastMoveY := ay.1 - p.floatY }

/-- A whole sequence of ticks. -/
def run (p : MovingPlatformState) : List (ℚ × List Rect) → MovingPlatformState
  | [] => p
  | (dt, obstacles) :: rest => run (update p dt obstacles) rest

end MovingPlatformState

/-! ### Walker enemy (GameMario.py lines 452-485) -/

structure Enemy where
  rect : Rect
  patrol : ℤ × ℤ
  speed : ℚ := mkRat 25 10
  direction : ℤ := 1
  health : ℤ := 1
  maxHealth : ℤ := 1
  invulnerable : ℚ := 0
  stomped : Bool := false
  deathTimer : ℚ := 0
  deriving DecidableEq, Repr

namespace Enemy

/-- Enemy.take_hit: the single damage-entry point. -/
def takeHit (e : Enemy) : String × Enemy :=
  if e.invulnerable > 0 then ("ignored", e)
  else
    let health := e.health - 1
    if health ≤ 0 then
      ("killed", { e with health := health, stomped := true, deathTimer := ENEMY_DEATH_DURATION })
    else
      ("damaged", { e with health := health, invulnerable := mkRat 3 10 })

end Enemy

/-! ### Player state (GameMario.py lines 574-723)

Fields of the Player dataclass touched by the embedded operations.
The 3D-mode configuration data beyond the mode flag is not needed by
any embedded operation and is omitted.
-/

structure Player where
  rect : Rect
  velX : ℚ := 0
  velY : ℚ := 0
  onGround : Bool := false
  combo : ℤ := 0
  invincibleTimer : ℚ := 0
  facing : ℤ := 1
  doubleJumpStock : ℤ := 0
  airborneTime : ℚ := 0
  swordReady : Bool := false
  swordCooldown : ℚ := 0
  swordCharges : ℤ := 0
  shieldCharges : ℤ := 0
  threeDMode : Bool := false
  floatX : ℚ := 0
  floatY : ℚ := 0
  pendingBounce : Option Platform := none
  pendingDoubleJumpEffect : Bool := false
  groundPlatform : Option Platform := none
  deriving DecidableEq, Repr

namespace Player

/-- Player.can_ground_jump. -/
def canGroundJump (p : Player) : Bool := p.onGround

/-- Player.start_ground_jump. -/
def startGroundJump (p : Player) : Player :=
  { p with velY := PLAYER_JUMP, onGround := false, airborneTime := 0,
           groundPlatform := none, pendingDoubleJumpEffect := false }

/-- Player.can_double_jump. -/
def canDoubleJump (p : Player) : Bool := !p.onGround && decide (p.doubleJumpStock > 0)

/-- Player.use_double_jump: consumes a charge with a decayed impulse. -/
def useDoubleJump (p : Player) : Player :=
  { p with velY := PLAYER_JUMP * DOUBLE_JUMP_DECAY,
           doubleJumpStock := p.doubleJumpStock - 1,
           airborneTime := 0,
           pendingDoubleJumpEffect := true }

/-- Player.jump: returns whether a jump occurred together with the new state. -/
def jump (p : Player) : Bool × Player :=
  if p.threeDMode then (false, p)
  else if p.canGroundJump then (true, p.startGroundJump)
  else if p.canDoubleJump then (true, p.useDoubleJump)
  else (false, p)

/-- Player.grant_double_jump. -/
def grantDoubleJump (p : Player) : Player :=
  { p with doubleJumpStock := min (p.doubleJumpStock + 1) MAX_DOUBLE_JUMP_STACK }

/-- Player.apply_gravity. -/
def applyGravity (p : Player) (frameScale : ℚ) : Player :=
  { p with velY := p.velY + GRAVITY * frameScale }

/-! #### Horizontal sweep (Player._horizontal_collisions, lines 851-890) -/

/-- One step of the rightward sweep scan: a platform whose vertical
extent overlaps the actor and whose left edge lies in the travelled
span shortens the allowed move when it is strictly nearer. -/
def sweepRightStep (top bottom : ℤ) (right targetRight : ℚ)
    (acc : ℚ × Option Platform) (plat : Platform) : ℚ × Option Platform :=
  let rect := plat.rect
  if bottom ≤ rect.top ∨ top ≥ rect.bottom then acc
  else if right ≤ (rect.left : ℚ) ∧ targetRight > (rect.left : ℚ) then
    let distance := (rect.left : ℚ) - right
    if distance < acc.1 then (max distance 0, some plat) else acc
  else acc

/-- One step of the leftward sweep scan. -/
def sweepLeftStep (top bottom : ℤ) (left targetLeft : ℚ)
    (acc : ℚ × Option Platform) (plat : Platform) : ℚ × Option Platform :=
  let rect := plat.rect
  if bottom ≤ rect.top ∨ top ≥ rect.bottom then acc
  else if left ≥ (rect.right : ℚ) ∧ targetLeft < (rect.right : ℚ) then
    let distance := (rect.right : ℚ) - left
    if distance > acc.1 then (min distance 0, some plat) else acc
  else acc

/-- The full horizontal sweep over the platform list, producing the
clamped move and the platform collided with, if any. -/
def horizontalSweep (p : Player) (platforms : List Platform) (deltaX : ℚ) :
    ℚ × Option Platform :=
  let left := p.floatX
  let right := left + (p.rect.w : ℚ)
  let top := p.rect.top
  let bottom := p.rect.bottom
  if deltaX > 0 then
    platforms.foldl (sweepRightStep top bottom right (right + deltaX)) (deltaX, none)
  else
    platforms.foldl (sweepLeftStep top bottom left (left + deltaX)) (deltaX, none)

/-- Player._horizontal_collisions. -/
def horizontalCollisions (p : Player) (platforms : List Platform) (deltaX : ℚ) : Player :=
  let sweep := p.horizontalSweep platforms deltaX
  let floatX := p.floatX + sweep.1
  let rect := { p.rect with x := pyRound floatX }
  match sweep.2 with
  | some c =>
      let rect := if deltaX > 0 then rect.withRight c.rect.left else rect.withLeft c.rect.right
      { p with rect := rect, floatX := (rect.x : ℚ), velX := 0 }
  | none => { p with rect := rect, floatX := floatX }

/-! #### Vertical sweep (Player._vertical_collisions, lines 892-995) -/

/-- One step of the downward sweep scan. -/
def sweepDownStep (left right : ℤ) (bottom targetBottom : ℚ)
    (acc : ℚ × Option Platform) (plat : Platform) : ℚ × Option Platform :=
  let rect := plat.rect
  if right ≤ rect.left ∨ left ≥ rect.right then acc
  else if bottom ≤ (rect.top : ℚ) ∧ targetBottom > (rect.top : ℚ) then
    let gap := (rect.top : ℚ) - bottom
    if gap < acc.1 then (max gap 0, some plat) else acc
  else acc

/-- One step of the upward sweep scan. -/
def sweepUpStep (left right : ℤ) (top targetTop : ℚ)
    (acc : ℚ × Option Platform) (plat : Platform) : ℚ × Option Platform :=
  let rect := plat.rect
  if right ≤ rect.left ∨ left ≥ rect.right then acc
  else if top ≥ (rect.bottom : ℚ) ∧ targetTop < (rect.bottom : ℚ) then
    let gap := (rect.bottom : ℚ) - top
    if gap > acc.1 then (min gap 0, some plat) else acc
  else acc

/-- The full vertical sweep, producing the clamped move and the platform
collided with, if any. -/
def verticalSweep (p : Player) (platforms : List Platform) (deltaY : ℚ) :
    ℚ × Option Platform :=
  let left := p.rect.left
  let right := p.rect.right
  let top := p.floatY
  let bottom := top + (p.rect.h : ℚ)
  if deltaY > 0 then
    platforms.foldl (sweepDownStep left right bottom (bottom + deltaY)) (deltaY, none)
  else
    platforms.foldl (sweepUpStep left right top (top + deltaY)) (deltaY, none)

/-- The residual-overlap scan of _vertical_collisions: the first platform
still overlapping the rectangle after the swept move. -/
def findResidualOverlap (rect : Rect) (platforms : List Platform) : Option Platform :=
  platforms.find? fun plat =>
    rect.colliderect plat.rect && decide ((rect.clip plat.rect).h > 0)

/-- Player._vertical_collisions: returns the landed flag and the new state.
The body mirrors the Python control flow: the swept move, the collided
branch, the residual-overlap fallback, then the final fix-ups
(zero a positive fall speed while grounded, clear the ground reference
while airborne, commit the local ground_platform variable). -/
def verticalCollisions (p : Player) (platforms : List Platform) (deltaY : ℚ)
    (previousBottom : ℤ) (wasOnGround : Bool) : Bool × Player :=
  if deltaY = 0 then (false, { p with floatY := (p.rect.y : ℚ) })
  else
    let sweep := p.verticalSweep platforms deltaY
    let floatY := p.floatY + sweep.1
    let rect := { p.rect with y := pyRound floatY }
    let p0 := { p with rect := rect, floatY := floatY, onGround := false }
    let step : Bool × Player × Option Platform :=
      match sweep.2 with
      | some c =>
          if deltaY > 0 then
            let rect := p0.rect.withBottom c.rect.top
            let p := { p0 with rect := rect, floatY := (rect.y : ℚ) }
            if c.isBouncy then
              (false, { p with velY := c.bounceVelocity, onGround := false,
                               pendingBounce := some c }, (none : Option Platform))
            else
              let landed := !wasOnGround && decide (previousBottom ≤ c.rect.top + 2)
              (landed, { p with velY := 0, onGround := true }, some c)
          else
            let rect := p0.rect.withTop c.rect.bottom
            (false, { p0 with rect := rect, floatY := (rect.y : ℚ), velY := 0 }, none)
      | none =>
          match findResidualOverlap p0.rect platforms with
          | some plat =>
              if p0.rect.centery ≤ plat.rect.centery then
                let rect := p0.rect.withBottom plat.rect.top
                let p := { p0 with rect := rect, floatY := (rect.y : ℚ) }
                if plat.isBouncy then
                  (false, { p with velY := plat.bounceVelocity, onGround := false,
                                   pendingBounce := some plat }, (none : Option Platform))
                else
                  let landed := !wasOnGround && decide (previousBottom ≤ plat.rect.top + 2)
                  (landed, { p with velY := 0, onGround := true }, some plat)
              else
                let rect := p0.rect.withTop plat.rect.bottom
                (false, { p0 with rect := rect, floatY := (rect.y : ℚ), velY := 0 }, none)
          | none => (false, p0, none)
    let landed := step.1
    let p1 := step.2.1
    let groundPlatform := step.2.2
    let p2 := if p1.onGround ∧ p1.velY > 0 then { p1 with velY := 0 } else p1
    let ground := if !p2.onGround then none else groundPlatform
    (landed, { p2 with groundPlatform := ground })

end Player

/-! ### Stationary shooter (GameMario.py lines 520-528)

The cooldown and pulse fields have dataclass default factories that
draw from the process-global random module; construction sites must
supply them explicitly.
-/

structure Shooter where
  rect : Rect
  facing : ℤ := 1
  fireRate : ℚ := mkRat 24 10
  cooldown : ℚ
  stomped : Bool := false
  deathTimer : ℚ := 0
  pulse : ℚ
  deriving DecidableEq, Repr

/-! ### Boss (GameMario.py lines 1327-1487)

The pulse field and the initial roam target drawn in __post_init__ come
from the process-global random module.
-/

structure Boss where
  rect : Rect
  anchors : List (ℚ × ℚ)
  health : ℤ := 5
  speed : ℚ := 180
  attackCooldown : ℚ := mkRat 24 10
  invulnerable : ℚ := 0
  defeated : Bool := false
  celebrationTimer : ℚ := mkRat 12 10
  anchorIndex : ℤ := 0
  moveTimer : ℚ := 0
  pulse : ℚ
  roamBounds : Rect
  roamTarget : ℚ × ℚ
  deriving DecidableEq, Repr

namespace Boss

/-- Boss.take_hit. -/
def takeHit (b : Boss) : Bool × Boss :=
  if b.invulnerable > 0 ∨ b.defeated then (false, b)
  else
    let health := b.health - 1
    let b := { b with health := health, invulnerable := mkRat 8 10 }
    if health ≤ 0 then (true, { b with defeated := true, celebrationTimer := mkRat 12 10 })
    else (true, b)

end Boss

/-! ### Collision-pass fragments of MarioLikeGame.handle_collisions
(GameMario.py lines 3160-3275) and the shield absorb helper
(lines 3353-3358). Scoring and particle effects are presentation-side
and are not carried. -/

/-- Outcome of a contact resolution for the player. -/
inductive ContactOutcome where
  | skip
  | stompHit (outcome : String)
  | stompKilled
  | absorbed
  | lifeLost
  deriving DecidableEq, Repr

namespace Player

/-- Player.consume_shield (lines 669-673). -/
def consumeShield (p : Player) : Bool × Player :=
  if p.shieldCharges ≤ 0 then (false, p)
  else (true, { p with shieldCharges := p.shieldCharges - 1 })

end Player

/-- MarioLikeGame._absorb_hit: consume a shield charge if available and
grant a short grace window. -/
def absorbHit (p : Player) : Bool × Player :=
  let cs := p.consumeShield
  if cs.1 then (true, { cs.2 with invincibleTimer := max cs.2.invincibleTimer (mkRat 6 10) })
  else (false, cs.2)

/-- The walker-enemy contact branch of handle_collisions (lines 3163-3185),
for a single enemy. -/
def enemyContactStep (p : Player) (e : Enemy) : ContactOutcome × Player × Enemy :=
  if e.stomped then (.skip, p, e)
  else if p.rect.colliderect e.rect then
    let landed := p.velY > 0 ∧ p.rect.bottom - e.rect.top < 22
    if landed then
      let rect := p.rect.withBottom e.rect.top
      let p := { p with velY := PLAYER_JUMP * mkRat 6 10, onGround := false,
                        rect := rect, floatY := (rect.y : ℚ) }
      let p := { p with invincibleTimer := max p.invincibleTimer STOMP_PROTECT_DURATION }
      let hit := e.takeHit
      (.stompHit hit.1, p, hit.2)
    else if p.invincibleTimer ≤ 0 then
      let ab := absorbHit p
      if ab.1 then (.absorbed, ab.2, e) else (.lifeLost, ab.2, e)
    else (.skip, p, e)
  else (.skip, p, e)

/-- The shooter contact branch of handle_collisions (lines 3187-3203),
for a single shooter. -/
def shooterContactStep (p : Player) (s : Shooter) : ContactOutcome × Player × Shooter :=
  if s.stomped then (.skip, p, s)
  else if p.rect.colliderect s.rect then
    let landed := p.velY > 0 ∧ p.rect.bottom - s.rect.top < 24
    if landed then
      let s := { s with stomped := true, deathTimer := ENEMY_DEATH_DURATION }
      let p := { p with velY := PLAYER_JUMP * mkRat 65 100, onGround := false }
      (.stompKilled, p, s)
    else if p.invincibleTimer ≤ 0 then
      let ab := absorbHit p
      if ab.1 then (.absorbed, ab.2, s) else (.lifeLost, ab.2, s)
    else (.skip, p, s)
  else (.skip, p, s)

/-- The boss contact branch of handle_collisions (lines 3215-3222):
body contact only ever harms the player; the boss state is untouched. -/
def bossContactStep (p : Player) (b : Boss) : ContactOutcome × Player × Boss :=
  let playerHitbox := p.rect.inflate (-12) (-6)
  if !b.defeated && playerHitbox.colliderect (b.rect.inflate (-18) (-18)) then
    if p.invincibleTimer ≤ 0 then
      let ab := absorbHit p
      if ab.1 then (.absorbed, ab.2, b) else (.lifeLost, ab.2, b)
    else (.skip, p, b)
  else (.skip, p, b)

/-- The shooter portion of MarioLikeGame._apply_slash_damage
(lines 3133-3140): a sword-beam hitbox defeats a live shooter on
contact. -/
def slashShooterStep (hitbox : Rect) (s : Shooter) : Shooter :=
  if s.stomped then s
  else if hitbox.colliderect s.rect then
    { s with stomped := true, deathTimer := ENEMY_DEATH_DURATION }
  else s

/-! ### Goal gating (GameMario.py lines 2649-2650 and 3258-3275) -/

structure Coin where
  rect : Rect
  collected : Bool := false
  pulse : ℚ
  deriving DecidableEq, Repr

structure GoalFlag where
  rect : Rect
  flutter : ℚ := 0
  deriving DecidableEq, Repr

/-- LevelManager.remaining_coins. -/
def remainingCoins (coins : List Coin) : ℕ :=
  (coins.filter fun c => !c.collected).length

/-- What the goal branch of handle_collisions decides. -/
inductive GoalResult where
  | inactive
  | secretPrompt
  | advanced
  | victory
  deriving DecidableEq, Repr

/-- The inputs the goal branch reads. -/
structure GoalCheckState where
  playerRect : Rect
  coins : List Coin
  isBossStage : Bool
  boss : Option Boss
  goal : GoalFlag
  levelIndex : ℤ
  totalLevels : ℤ
  secretLevelAdded : Bool
  deriving Repr

/-- The goal_ready computation of lines 3258-3260: every coin collected
and, on a boss stage, the boss defeated or absent. -/
def goalReady (st : GoalCheckState) : Bool :=
  let ready := decide (remainingCoins st.coins = 0)
  if st.isBossStage then
    ready && (match st.boss with | none => true | some b => b.defeated)
  else ready

/-- The goal branch of handle_collisions (lines 3258-3275): the flag is
collision-checked only once goal_ready holds. -/
def handleGoal (st : GoalCheckState) : GoalResult :=
  if goalReady st && st.playerRect.colliderect (st.goal.rect.inflate 40 40) then
    let lastRegularLevel := decide (st.levelIndex = st.totalLevels - 1)
    if lastRegularLevel && !st.secretLevelAdded then .secretPrompt
    else if st.levelIndex + 1 < st.totalLevels then .advanced
    else .victory
  else .inactive

/-! ### Random draw streams

A stream of naturals stands for the successive draws of one
random.Random instance. Each primitive consumes one element and maps
it into the requested range, so every Python draw sequence corresponds
to some stream. random() is modelled with a granularity of 1/1000.
-/

def drawNat (s : List ℕ) : ℕ × List ℕ := (s.headD 0, s.tail)

/-- rng.random(): a rational in the interval from 0 inclusive to 1
exclusive. -/
def randUnit (s : List ℕ) : ℚ × List ℕ :=
  let (n, s) := drawNat s
  (mkRat (n % 1000 : ℕ) 1000, s)

/-- rng.randint(a, b): inclusive on both ends. -/
def randInt (a b : ℤ) (s : List ℕ) : ℤ × List ℕ :=
  let (n, s) := drawNat s
  (a + (n : ℤ) % (b - a + 1), s)

/-- rng.randrange(a, b): inclusive on the left only. -/
def randRange (a b : ℤ) (s : List ℕ) : ℤ × List ℕ :=
  let (n, s) := drawNat s
  (a + (n : ℤ) % (b - a), s)

/-- rng.uniform(a, b). -/
def randUniform (a b : ℚ) (s : List ℕ) : ℚ × List ℕ :=
  let (u, s) := randUnit s
  (a + (b - a) * u, s)

/-- rng.choice(seq): one index below the length. -/
def randChoice (l : List Platform) (dflt : Platform) (s : List ℕ) : Platform × List ℕ :=
  let (n, s) := drawNat s
  (l.getD (n % l.length) dflt, s)

/-- Swap two positions of a list (identity when either is out of range). -/
def swapAt (l : List α) (i j : ℕ) : List α :=
  match l.get? i, l.get? j with
  | some a, some b => (l.set i b).set j a
  | _, _ => l

/-- The Fisher-Yates walk of random.shuffle: indices from the top down
to 1, each swapped with a drawn index at or below it. -/
def shuffleGo (l : List α) : ℕ → List ℕ → List α × List ℕ
  | 0, s => (l, s)
  | i + 1, s =>
      let (n, s) := drawNat s
      let j := n % (i + 2)
      shuffleGo (swapAt l (i + 1) j) i s

/-- rng.shuffle. -/
def shuffleList (l : List α) (s : List ℕ) : List α × List ℕ :=
  shuffleGo l (l.length - 1) s

/-- The exact rational value of the float math.tau. -/
def MATH_TAU : ℚ := mkRat 884279719003555 140737488355328

/-- Python int() applied to a rational: truncation toward zero. -/
def pyInt (q : ℚ) : ℤ := if q ≥ 0 then ⌊q⌋ else -⌊-q⌋

/-! ### Procedural level generator (GameMario.py lines 1690-2039)

generate_level is embedded phase by phase in source order. The seeded
stream s carries the draws of the rng argument; the global stream g
carries the draws of the process-global random module consumed by the
dataclass default factories (coin and power-up pulse phases, shooter
cooldowns). The two streams are independent in Python, so each is
threaded separately.
-/

/-- The three power-up dataclasses share this shape. -/
structure PowerUp where
  rect : Rect
  pulse : ℚ
  collected : Bool := false
  deriving DecidableEq, Repr

def dummyPlatform : Platform := { rect := ⟨0, 0, 0, 0⟩ }

/-- mark_bouncy (lines 1698-1701). -/
def markBouncy (p : Platform) (strength : ℚ) : Platform :=
  { p with isBouncy := true, bounceVelocity := BOUNCE_VELOCITY * strength }

/-- maybe_make_bouncy (lines 1703-1705): the chance is drawn only for a
platform that is not already bouncy. -/
def maybeMakeBouncy (p : Platform) (chance strength : ℚ) (s : List ℕ) : Platform × List ℕ :=
  if !p.isBouncy then
    let (u, s) := randUnit s
    (if u < chance then markBouncy p strength else p, s)
  else (p, s)

def baseBounceChance (stage : ℕ) : ℚ := MIN_BOUNCY_CHANCE + mkRat 3 100 * stage
def bounceMultiplier (stage : ℕ) : ℚ := 1 + mkRat 5 100 * stage

/-! #### Spine construction (lines 1707-1733) -/

/-- One interior spine segment (loop body of lines 1715-1724). -/
def spineSegmentStep (stage : ℕ) (acc : List Platform × ℤ × ℤ × List ℕ) :
    List Platform × ℤ × ℤ × List ℕ :=
  let (platforms, currentRight, currentY, s) := acc
  let (gap, s) := randInt 70 (120 + 20 * stage) s
  let (width, s) := randInt 160 (260 + 20 * stage) s
  let (deltaY, s) := randInt (-80 - 10 * stage) (80 + 10 * stage) s
  let currentY := clampZ (currentY + deltaY) 260 520
  let rect : Rect := ⟨currentRight + gap, currentY, width, 40⟩
  let (plat, s) := maybeMakeBouncy { rect := rect } (baseBounceChance stage) (bounceMultiplier stage) s
  (platforms ++ [plat], rect.right, currentY, s)

def spineLoop (stage : ℕ) : ℕ → (List Platform × ℤ × ℤ × List ℕ) →
    List Platform × ℤ × ℤ × List ℕ
  | 0, acc => acc
  | n + 1, acc => spineLoop stage n (spineSegmentStep stage acc)

structure SpineResult where
  basePlatforms : List Platform
  firstRect : Rect
  spawnPoint : ℤ × ℤ
  currentRight : ℤ
  currentY : ℤ
  finalRect : Rect
  stream : List ℕ
  deriving Repr

/-- Lines 1707-1733: first segment, interior chain, final segment. -/
def buildSpine (stage : ℕ) (s : List ℕ) : SpineResult :=
  let (firstWidth, s) := randInt 220 280 s
  let firstRect : Rect := ⟨0, 520, firstWidth, 40⟩
  let platforms : List Platform := [{ rect := firstRect }]
  let spawnPoint := (firstRect.left + 36, firstRect.top - 60)
  let (platforms, currentRight, currentY, s) :=
    spineLoop stage (6 + 2 * stage) (platforms, firstRect.right, firstRect.y, s)
  let (finalGap, s) := randInt 80 140 s
  let (finalWidth, s) := randInt 220 320 s
  let (dY, s) := randInt (-60) 60 s
  let finalY := clampZ (currentY + dY) 260 520
  let finalRect : Rect := ⟨currentRight + finalGap, finalY, finalWidth, 40⟩
  { basePlatforms := platforms ++ [{ rect := finalRect }],
    firstRect := firstRect, spawnPoint := spawnPoint,
    currentRight := finalRect.right, currentY := currentY,
    finalRect := finalRect, stream := s }

/-! #### Floating platform scatter (lines 1735-1763) -/

/-- The loop body for one interior spine platform: possibly one floating
platform above it. The proximity scan runs over the spine list, which
is what the platforms list holds at that point in the source. -/
def floatCandidate (stage : ℕ) (spine : List Platform) (parent : Platform) (s : List ℕ) :
    Option Platform × List ℕ :=
  let (u, s) := randUnit s
  if u < mkRat 35 100 + mkRat 8 100 * stage then
    let (fw, s) := randInt 90 140 s
    let minX := parent.rect.left + 20
    let maxX := parent.rect.right - fw - 20
    if maxX ≤ minX then (none, s)
    else
      let (x, s) := randInt minX maxX s
      let (d, s) := randInt 110 (170 + 10 * stage) s
      let y := clampZ (parent.rect.y - d) (260 - 160) (parent.rect.y - 90)
      if parent.rect.y - y < 80 then (none, s)
      else
        let candidate : Rect := ⟨x, y, fw, 28⟩
        let tooClose := spine.any fun existing =>
          let overlap := min candidate.right existing.rect.right -
            max candidate.left existing.rect.left
          decide (overlap > 0) &&
            (let verticalGap := existing.rect.top - candidate.bottom
             decide (0 ≤ verticalGap) && decide (verticalGap < 100) &&
             decide ((overlap : ℚ) > (fw : ℚ) * mkRat 6 10))
        if tooClose then (none, s)
        else
          let (fp, s) := maybeMakeBouncy { rect := candidate }
            (baseBounceChance stage + mkRat 8 100) (bounceMultiplier stage + mkRat 5 100) s
          (some fp, s)
  else (none, s)

def floatLoop (stage : ℕ) (spine : List Platform) :
    List Platform → List ℕ → List Platform × List ℕ
  | [], s => ([], s)
  | parent :: rest, s =>
      let (cand, s) := floatCandidate stage spine parent s
      let (restFloats, s) := floatLoop stage spine rest s
      (match cand with | some f => f :: restFloats | none => restFloats, s)

def buildFloating (stage : ℕ) (spine : List Platform) (s : List ℕ) :
    List Platform × List ℕ :=
  floatLoop stage spine ((spine.drop 1).dropLast) s

/-! #### Kinematic platform placement (lines 1765-1859) -/

/-- The deflated-rectangle overlap test used for mover placement. -/
def platInflCollide (a : Rect) (other : Platform) : Bool :=
  a.colliderect (other.rect.inflate (-12) (-12))

/-- create_horizontal_platform (lines 1765-1798). -/
def createHorizontalPlatform (stage : ℕ) (basePlatforms platformsAll : List Platform)
    (currentRight : ℤ) (movers : List Platform) (s : List ℕ) :
    Option Platform × List ℕ :=
  let anchorChoices := if basePlatforms.length > 2 then (basePlatforms.drop 1).dropLast
    else basePlatforms
  if anchorChoices.isEmpty then (none, s)
  else
    let (anchor, s) := randChoice anchorChoices dummyPlatform s
    let (width, s) := randInt 100 140 s
    let leftBound := anchor.rect.left + 20
    let rightBound := anchor.rect.right - width - 20
    if rightBound ≤ leftBound then (none, s)
    else
      let (startX, s) := randInt leftBound rightBound s
      let (heightOffset, s) := randInt 80 150 s
      let y := max (260 - 60) (anchor.rect.y - heightOffset)
      let (dl, s) := randInt 80 160 s
      let spanLeft := max 0 (startX - dl)
      let (dr, s) := randInt 80 160 s
      let spanRight := min (currentRight - 40) (startX + width + dr)
      if spanRight - spanLeft ≤ width + 10 then (none, s)
      else
        let mp : Platform := { rect := ⟨startX, y, width, 26⟩, moving := true,
                               boundsX := (spanLeft, spanRight), boundsY := (y, y + 1),
                               speedX := 2 + mkRat 4 10 * stage, speedY := 0 }
        if platformsAll.any (platInflCollide mp.rect) then (none, s)
        else if movers.any (platInflCollide mp.rect) then (none, s)
        else
          let (mp, s) := maybeMakeBouncy mp MOVING_BOUNCY_CHANCE (bounceMultiplier stage + mkRat 4 100) s
          (some mp, s)

/-- create_vertical_platform (lines 1800-1832). -/
def createVerticalPlatform (stage : ℕ) (basePlatforms platformsAll : List Platform)
    (currentRight : ℤ) (movers : List Platform) (s : List ℕ) :
    Option Platform × List ℕ :=
  let candidates := if basePlatforms.length > 2 then (basePlatforms.drop 1).dropLast
    else basePlatforms
  if candidates.isEmpty then (none, s)
  else
    let (anchor, s) := randChoice candidates dummyPlatform s
    let (width, s) := randInt 90 130 s
    let leftBound := anchor.rect.left + 20
    let rightBound := anchor.rect.right - width - 20
    if rightBound ≤ leftBound then (none, s)
    else
      let (startX, s) := randInt leftBound rightBound s
      let (d1, s) := randInt 160 220 s
      let top := max (260 - 200) (anchor.rect.y - d1)
      let (d2, s) := randInt 70 110 s
      let bottom := anchor.rect.y - d2
      if bottom - top < 60 then (none, s)
      else
        let (startY, s) := randInt top (bottom - 40) s
        let mp : Platform := { rect := ⟨startX, startY, width, 26⟩, moving := true,
                               boundsX := (startX, startX + width), boundsY := (top, bottom),
                               speedX := 0, speedY := mkRat 12 10 + mkRat 3 10 * stage }
        if platformsAll.any (platInflCollide mp.rect) then (none, s)
        else if movers.any (platInflCollide mp.rect) then (none, s)
        else
          let (mp, s) := maybeMakeBouncy mp MOVING_BOUNCY_CHANCE (bounceMultiplier stage + mkRat 6 100) s
          (some mp, s)

/-- try_add (lines 1836-1846): up to six attempts of one generator. -/
def tryAdd (gen : List Platform → List ℕ → Option Platform × List ℕ) :
    ℕ → List Platform → List ℕ → List Platform × Bool × List ℕ
  | 0, movers, s => (movers, false, s)
  | n + 1, movers, s =>
      let (cand, s) := gen movers s
      match cand with
      | none => tryAdd gen n movers s
      | some plat =>
          if movers.any (platInflCollide plat.rect) then tryAdd gen n movers s
          else (movers ++ [plat], true, s)

/-- The while loop of lines 1855-1859, fuelled by the attempt budget. -/
def moverWhileLoop (stage : ℕ) (basePlatforms platformsAll : List Platform)
    (currentRight target : ℤ) :
    ℕ → List Platform → List ℕ → List Platform × List ℕ
  | 0, movers, s => (movers, s)
  | fuel + 1, movers, s =>
      if (movers.length : ℤ) < target then
        let (u, s) := randUnit s
        let gen := if u < mkRat 4 10 then
            createVerticalPlatform stage basePlatforms platformsAll currentRight
          else createHorizontalPlatform stage basePlatforms platformsAll currentRight
        let (movers, _, s) := tryAdd gen 6 movers s
        moverWhileLoop stage basePlatforms platformsAll currentRight target fuel movers s
      else (movers, s)

/-- Lines 1834-1859: the whole kinematic-platform phase. -/
def buildMovers (stage : ℕ) (basePlatforms platformsAll : List Platform)
    (currentRight : ℤ) (s : List ℕ) : List Platform × List ℕ :=
  let (movers, _, s) :=
    tryAdd (createHorizontalPlatform stage basePlatforms platformsAll currentRight) 6 [] s
  let (movers, s) :=
    if stage ≥ 1 then
      let (movers, _, s) :=
        tryAdd (createVerticalPlatform stage basePlatforms platformsAll currentRight) 6 movers s
      (movers, s)
    else (movers, s)
  let target := clampZ (1 + (stage : ℤ)) 1 5
  moverWhileLoop stage basePlatforms platformsAll currentRight target (target * 6).toNat movers s

/-! #### Placement predicates (lines 1863-1932)

The Python identity skips (other is surface, other is ignore) are
modelled with structural inequality.
-/

/-- has_low_headroom (lines 1863-1877). -/
def hasLowHeadroom (platformsWithMotion : List Platform) (surface : Platform)
    (minGap : ℤ) : Bool :=
  platformsWithMotion.any fun other =>
    decide (other ≠ surface) &&
    decide (other.rect.top < surface.rect.top) &&
    (let horizontalOverlap := min surface.rect.right other.rect.right -
       max surface.rect.left other.rect.left
     decide (horizontalOverlap > 0) &&
       (let verticalGap := surface.rect.top - other.rect.bottom
        decide (0 ≤ verticalGap) && decide (verticalGap < minGap) &&
        decide ((horizontalOverlap : ℚ) > (surface.rect.w : ℚ) * mkRat 4 10)))

/-- area_is_clear (lines 1896-1902). -/
def areaIsClear (solidRects : List Rect) (area : Rect) (ignore : Option Rect) : Bool :=
  !solidRects.any fun other => decide (some other ≠ ignore) && area.colliderect other

/-- coin_rect_for (lines 1904-1905). -/
def coinRectFor (surfaceRect : Rect) : Rect :=
  ⟨surfaceRect.centerx - 14, surfaceRect.top - 52, 28, 28⟩

/-- has_coin_clearance (lines 1907-1911). -/
def hasCoinClearance (solidRects : List Rect) (surfaceRect : Rect) : Bool :=
  let expanded := ((coinRectFor surfaceRect).inflate 6 6).withBottom (surfaceRect.top - 4)
  areaIsClear solidRects expanded (some surfaceRect)

/-- is_surface_reachable (lines 1913-1932). -/
def isSurfaceReachable (basePlatforms platformsWithMotion : List Platform)
    (stage : ℕ) (surface : Platform) : Bool :=
  if surface ∈ basePlatforms then true
  else
    let maxVertical : ℤ := 220 + 10 * stage
    platformsWithMotion.any fun anchor =>
      decide (anchor ≠ surface) &&
      decide (anchor.rect.top > surface.rect.top) &&
      decide (anchor.rect.top - surface.rect.top ≤ maxVertical) &&
      !decide (anchor.rect.right + 40 < surface.rect.left) &&
      !decide (anchor.rect.left - 40 > surface.rect.right)

/-! #### Walker enemy placement (lines 1879-1892) -/

def enemyLoop (stage : ℕ) (platformsWithMotion : List Platform) :
    List Platform → List ℕ → List Enemy × List ℕ
  | [], s => ([], s)
  | platform :: rest, s =>
      let patrolLeft := platform.rect.left + 12
      let patrolRight := platform.rect.right - 12
      if patrolRight - patrolLeft < 50 then enemyLoop stage platformsWithMotion rest s
      else
        let (u, s) := randUnit s
        if u < mkRat 35 100 + mkRat 12 100 * stage ∧
            ¬hasLowHeadroom platformsWithMotion platform 110 = true then
          let size : ℤ := if stage = 0 then 38 else 42
          let (x, s) := randInt patrolLeft (patrolRight - size) s
          let rect : Rect := ⟨x, platform.rect.y - size, size, size⟩
          let (u2, s) := randUnit s
          let speed := mkRat 13 10 + u2 * (mkRat 6 10 + mkRat 4 10 * stage)
          let (tough, s) := if stage ≥ 1 then
              let (u3, s) := randUnit s
              (decide (u3 < mkRat 35 100), s)
            else (false, s)
          let hp : ℤ := if tough then 2 else 1
          let enemy : Enemy := { rect := rect, patrol := (patrolLeft, patrolRight),
                                 speed := speed, health := hp, maxHealth := hp }
          let (restEnemies, s) := enemyLoop stage platformsWithMotion rest s
          (enemy :: restEnemies, s)
        else enemyLoop stage platformsWithMotion rest s

/-! #### Coin placement (lines 1934-1944) -/

/-- The surface list feeding coin placement (lines 1934-1937), before the
shuffle. -/
def coinSurfacePool (basePlatforms platformsWithMotion : List Platform)
    (solidRects : List Rect) (stage : ℕ) : List Platform :=
  let surfaces := platformsWithMotion.filter fun p =>
    hasCoinClearance solidRects p.rect &&
    isSurfaceReachable basePlatforms platformsWithMotion stage p
  if surfaces.length < 5 then
    let fallback := platformsWithMotion.filter fun p =>
      isSurfaceReachable basePlatforms platformsWithMotion stage p
    if fallback.isEmpty then platformsWithMotion else fallback
  else surfaces

/-- The coin loop of lines 1940-1944: the surfaces actually given coins. -/
def coinSurfaces (platformsWithMotion shuffled : List Platform) (desired : ℕ) :
    List Platform :=
  (shuffled.take desired).filter fun surface =>
    !hasLowHeadroom platformsWithMotion surface 110

/-- Coin construction: the pulse default factory draws on the global
random module. -/
def attachCoins : List Rect → List ℕ → List Coin × List ℕ
  | [], g => ([], g)
  | r :: rest, g =>
      let (u, g) := randUnit g
      let (coins, g) := attachCoins rest g
      ({ rect := r, pulse := u * MATH_TAU } :: coins, g)

/-! #### Shooter placement (lines 1946-1965) -/

/-- ShooterEnemy dataclass construction: cooldown and pulse come from the
global random module default factories (lines 525 and 528). -/
def mkShooterDefaults (rect : Rect) (facing : ℤ) (fireRate : ℚ) (g : List ℕ) :
    Shooter × List ℕ :=
  let (cu, g) := randUniform (mkRat 6 10) 1 g
  let (pu, g) := randUnit g
  ({ rect := rect, facing := facing, fireRate := fireRate,
     cooldown := cu, pulse := pu * MATH_TAU }, g)

def shooterLoop (solidRects : List Rect) (shooterGoal : ℕ) :
    List Platform → ℕ → List ℕ → List ℕ → List Shooter × List ℕ × List ℕ
  | [], _, s, g => ([], s, g)
  | platform :: rest, count, s, g =>
      if count ≥ shooterGoal then ([], s, g)
      else
        let clearance := (Rect.mk (platform.rect.left + 8) (platform.rect.top - 120)
            (platform.rect.w - 16) 120).withBottom (platform.rect.top - 6)
        if ¬areaIsClear solidRects clearance (some platform.rect) = true then
          shooterLoop solidRects shooterGoal rest count s g
        else
          let minX := platform.rect.left + 20
          let maxX := platform.rect.right - 46 - 20
          if maxX ≤ minX then shooterLoop solidRects shooterGoal rest count s g
          else
            let (x, s) := randInt minX maxX s
            let rect : Rect := ⟨x, platform.rect.top - 52, 46, 52⟩
            let (shooter, g) := mkShooterDefaults rect 1 (mkRat 24 10) g
            let (restShooters, s, g) := shooterLoop solidRects shooterGoal rest (count + 1) s g
            (shooter :: restShooters, s, g)

/-! #### Power-up placement (lines 1967-2013) -/

/-- The double-jump orb search loop (lines 1970-1979): the first shuffled
candidate that passes the aura and headroom checks. -/
def pickOrbSurface (platformsWithMotion : List Platform) (solidRects : List Rect) :
    List Platform → Option Platform
  | [] => none
  | platform :: rest =>
      let puRect : Rect := ⟨platform.rect.centerx - 18, platform.rect.top - 60, 36, 36⟩
      let aura := (puRect.inflate 10 10).withBottom (platform.rect.top - 8)
      if areaIsClear solidRects aura (some platform.rect) &&
          !hasLowHeadroom platformsWithMotion platform 130 then some platform
      else pickOrbSurface platformsWithMotion solidRects rest

/-- The shield search loop (lines 1988-1999). -/
def pickShieldSurface (platformsWithMotion : List Platform) (solidRects : List Rect)
    (orbRects : List Rect) : List Platform → Option Platform
  | [] => none
  | platform :: rest =>
      let shieldRect : Rect := ⟨platform.rect.centerx - 20, platform.rect.top - 62, 40, 40⟩
      let aura := (shieldRect.inflate 12 12).withBottom (platform.rect.top - 6)
      if areaIsClear solidRects aura (some platform.rect) &&
          !orbRects.any (shieldRect.colliderect) &&
          !hasLowHeadroom platformsWithMotion platform 120 then some platform
      else pickShieldSurface platformsWithMotion solidRects orbRects rest

/-- The sword search loop (lines 2004-2013). -/
def pickSwordSurface (platformsWithMotion : List Platform) (solidRects : List Rect) :
    List Platform → Option Platform
  | [] => none
  | platform :: rest =>
      let swordRect : Rect := ⟨platform.rect.centerx - 16, platform.rect.top - 56, 32, 32⟩
      let aura := (swordRect.inflate 8 8).withBottom (platform.rect.top - 6)
      if areaIsClear solidRects aura (some platform.rect) &&
          !hasLowHeadroom platformsWithMotion platform 120 then some platform
      else pickSwordSurface platformsWithMotion solidRects rest

/-- Power-up construction with the global-module pulse default. -/
def attachPowerUps : List Rect → List ℕ → List PowerUp × List ℕ
  | [], g => ([], g)
  | r :: rest, g =>
      let (u, g) := randUnit g
      let (pus, g) := attachPowerUps rest g
      ({ rect := r, pulse := u * MATH_TAU } :: pus, g)

/-! #### Whole-level assembly (lines 1690-2039) -/

/-- The dict returned by the generators. -/
structure Blueprint where
  platforms : List Platform
  movingPlatforms : List Platform
  enemies : List Enemy
  shooters : List Shooter
  doubleJump : List PowerUp
  swords : List PowerUp
  shields : List PowerUp
  coins : List Coin
  goal : GoalFlag
  spawnPoint : ℤ × ℤ
  killPlane : ℤ
  length : ℤ
  theme : ℕ
  isBoss : Bool
  boss : Option Boss
  deriving DecidableEq, Repr

/-- The result of generate_level together with the internal lists the
properties below speak about and the remaining streams. -/
structure GenResult where
  basePlatforms : List Platform
  floating : List Platform
  blueprint : Blueprint
  seededStream : List ℕ
  globalStream : List ℕ
  deriving Repr

def generateLevelFull (stage theme : ℕ) (s g : List ℕ) : GenResult :=
  let spine := buildSpine stage s
  let base := spine.basePlatforms
  let (floats, s) := buildFloating stage base spine.stream
  let platforms := base ++ floats
  let (movers, s) := buildMovers stage base platforms spine.currentRight s
  let platformsWithMotion := platforms ++ movers
  let (enemies, s) := enemyLoop stage platformsWithMotion ((platforms.drop 1).dropLast) s
  let solidRects := platformsWithMotion.map (·.rect)
  let pool := coinSurfacePool base platformsWithMotion solidRects stage
  let (shuffledSurfaces, s) := shuffleList pool s
  let (desiredDraw, s) := randInt 5 6 s
  let desired := min (shuffledSurfaces.length : ℤ) desiredDraw
  let coinSurfs := coinSurfaces platformsWithMotion shuffledSurfaces desired.toNat
  let coinsG := attachCoins (coinSurfs.map fun p => coinRectFor p.rect) g
  let coins := coinsG.1
  let g := coinsG.2
  let shooterCandidates := ((base.drop 1).dropLast).filter fun p => decide (p.rect.w ≥ 120)
  let (shuffledShooterCands, s) := shuffleList shooterCandidates s
  let shooterGoal := min (stage + 1) 3
  let shootersSG := shooterLoop solidRects shooterGoal shuffledShooterCands 0 s g
  let shooters := shootersSG.1
  let s := shootersSG.2.1
  let g := shootersSG.2.2
  let orbCandidates := platformsWithMotion.filter fun p =>
    hasCoinClearance solidRects p.rect &&
    isSurfaceReachable base platformsWithMotion stage p
  let (shuffledOrbCands, s) := shuffleList orbCandidates s
  let orbRects := match pickOrbSurface platformsWithMotion solidRects shuffledOrbCands with
    | some p => [Rect.mk (p.rect.centerx - 18) (p.rect.top - 60) 36 36]
    | none =>
        let anchor := platforms.getD (platforms.length / 2) dummyPlatform
        if !hasLowHeadroom platformsWithMotion anchor 130 then
          [Rect.mk (anchor.rect.centerx - 18) (anchor.rect.top - 60) 36 36]
        else []
  let orbsG := attachPowerUps orbRects g
  let orbs := orbsG.1
  let g := orbsG.2
  let shieldCandidates := platformsWithMotion.filter fun p => hasCoinClearance solidRects p.rect
  let (shuffledShieldCands, s) := shuffleList shieldCandidates s
  let shieldRects := match pickShieldSurface platformsWithMotion solidRects
      (orbs.map (·.rect)) shuffledShieldCands with
    | some p => [Rect.mk (p.rect.centerx - 20) (p.rect.top - 62) 40 40]
    | none => []
  let shieldsG := attachPowerUps shieldRects g
  let shields := shieldsG.1
  let g := shieldsG.2
  let swordCandidates := platformsWithMotion.filter fun p =>
    hasCoinClearance solidRects p.rect &&
    isSurfaceReachable base platformsWithMotion stage p
  let (shuffledSwordCands, s) := shuffleList swordCandidates s
  let swordRects := match pickSwordSurface platformsWithMotion solidRects shuffledSwordCands with
    | some p => [Rect.mk (p.rect.centerx - 16) (p.rect.top - 56) 32 32]
    | none => []
  let swordsG := attachPowerUps swordRects g
  let swords := swordsG.1
  let g := swordsG.2
  let finalPlatform := platforms.getLastD dummyPlatform
  let goal : GoalFlag := { rect := ⟨finalPlatform.rect.right - 48, finalPlatform.rect.y, 32, 80⟩ }
  let tallest := (platforms ++ movers).foldl (fun m p => max m p.rect.bottom)
    spine.finalRect.bottom
  { basePlatforms := base
    floating := floats
    blueprint :=
      { platforms := platforms
        movingPlatforms := movers
        enemies := enemies
        shooters := shooters
        doubleJump := orbs
        swords := swords
        shields := shields
        coins := coins
        goal := goal
        spawnPoint := spine.spawnPoint
        killPlane := tallest + 240
        length := max (spine.currentRight + 180) SCREEN_WIDTH
        theme := theme
        isBoss := false
        boss := none }
    seededStream := s
    globalStream := g }

def generateLevel (stage theme : ℕ) (s g : List ℕ) : Blueprint × List ℕ × List ℕ :=
  let full := generateLevelFull stage theme s g
  (full.blueprint, full.seededStream, full.globalStream)

/-! #### Boss level (generate_boss_level, lines 2042-2212) -/

def qListMin (l : List ℚ) (dflt : ℚ) : ℚ :=
  match l with
  | [] => dflt
  | h :: t => t.foldl min h

def qListMax (l : List ℚ) (dflt : ℚ) : ℚ :=
  match l with
  | [] => dflt
  | h :: t => t.foldl max h

/-- Boss._setup_roam_area (lines 1382-1401). -/
def setupRoamArea (anchors : List (ℚ × ℚ)) (rect : Rect) : Rect :=
  let (left, right, top, bottom) :=
    if !anchors.isEmpty then
      let xs := anchors.map Prod.fst
      let ys := anchors.map Prod.snd
      (qListMin xs 0 - 120, qListMax xs 0 + 120, qListMin ys 0 - 140,
       min (qListMax ys 0 + 80) (qListMin ys 0 + 220))
    else
      (((rect.centerx : ℚ) - 200), ((rect.centerx : ℚ) + 200),
       ((rect.centery : ℚ) - 180), ((rect.centery : ℚ) + 80))
  let left := pyInt left
  let top := pyInt (max 40 top)
  let right := pyInt (max ((left : ℚ) + 10) right)
  let bottom := pyInt (max ((top : ℚ) + 120) bottom)
  let width := max 160 (right - left)
  let height := max 120 (bottom - top)
  ⟨left, top, width, height⟩

/-- Boss._pick_new_roam_target with force=True (lines 1403-1421); the
coordinate draws come from the global random module. -/
def pickRoamTargetInit (rect roamBounds : Rect) (g : List ℕ) : (ℚ × ℚ) × List ℕ :=
  let marginX := (rect.w : ℚ) * mkRat 1 2 + 24
  let marginY := (rect.h : ℚ) * mkRat 1 2 + 24
  let left := (roamBounds.left : ℚ) + marginX
  let right := (roamBounds.right : ℚ) - marginX
  let top := (roamBounds.top : ℚ) + marginY
  let bottom := (roamBounds.bottom : ℚ) - marginY
  let right := if right ≤ left then left else right
  let bottom := if bottom ≤ top then top else bottom
  let (x, g) := if right > left then randUniform left right g else (left, g)
  let (y, g) := if bottom > top then randUniform top bottom g else (top, g)
  ((x, y), g)

/-- Boss dataclass construction followed by __post_init__: the pulse
default factory and then the initial roam target draw on the global
random module. -/
def mkBossDefaults (rect : Rect) (anchors : List (ℚ × ℚ)) (health : ℤ) (speed : ℚ)
    (attackCooldown : ℚ) (g : List ℕ) : Boss × List ℕ :=
  let (pu, g) := randUnit g
  let roamBounds := setupRoamArea anchors rect
  let (target, g) := pickRoamTargetInit rect roamBounds g
  ({ rect := rect, anchors := anchors, health := health, speed := speed,
     attackCooldown := attackCooldown, pulse := pu * MATH_TAU,
     roamBounds := roamBounds, roamTarget := target, moveTimer := 0 }, g)

/-- The ground-section loop of lines 2058-2062. -/
def bossGroundLoop : ℕ → ℤ → ℤ → List Platform → List ℕ → List Platform × ℤ × List ℕ
  | 0, cursorX, _, platforms, s => (platforms, cursorX, s)
  | n + 1, cursorX, baseY, platforms, s =>
      let (width, s) := randInt 260 340 s
      let rect : Rect := ⟨cursorX, baseY, width, 44⟩
      let (gap, s) := randInt 60 100 s
      bossGroundLoop n (cursorX + width + gap) baseY (platforms ++ [{ rect := rect }]) s

/-- The walker loop of lines 2160-2173. -/
def bossEnemyLoop : List Platform → List ℕ → List Enemy × List ℕ
  | [], s => ([], s)
  | sec :: rest, s =>
      let patrolLeft := sec.rect.left + 24
      let patrolRight := sec.rect.right - 24
      if patrolRight - patrolLeft < 80 then bossEnemyLoop rest s
      else
        let (u, s) := randUnit s
        if u < mkRat 6 10 then
          let (x, s) := randInt (patrolLeft + 12) (patrolRight - 48) s
          let rect : Rect := ⟨x, sec.rect.top - 44, 36, 40⟩
          let (u2, s) := randUnit s
          let enemy : Enemy := { rect := rect, patrol := (patrolLeft, patrolRight),
                                 speed := mkRat 28 10 + u2 * mkRat 13 10 }
          let (restEnemies, s) := bossEnemyLoop rest s
          (enemy :: restEnemies, s)
        else bossEnemyLoop rest s

/-- The boss-arena coin rectangles of lines 2151-2158. -/
def bossCoinRects (grounds : List Platform) (padL padR elevated horizontal : Platform) :
    List Rect :=
  let anchorCoins := [padL, padR, elevated, horizontal].map fun a =>
    Rect.mk (a.rect.centerx - 16) (a.rect.top - 56) 32 32
  let groundCoins := (grounds.enum.filter fun gi => gi.1 % 2 = 0).map fun gi =>
    Rect.mk (gi.2.rect.centerx - 16) (gi.2.rect.top - 56) 32 32
  anchorCoins ++ groundCoins

def generateBossLevel (stage theme : ℕ) (s g : List ℕ) : Blueprint × List ℕ × List ℕ :=
  let (baseDrop, s) := randInt 120 150 s
  let baseY := SCREEN_HEIGHT - baseDrop
  let (groundDraw, s) := randInt 0 1 s
  let groundSections := (3 + groundDraw).toNat
  let (platforms, cursorX, s) := bossGroundLoop groundSections 0 baseY [] s
  let levelLength := max 1280 (cursorX + 300)
  let (u, s) := randUnit s
  let bounceStrength := mkRat 108 100 + u * mkRat 12 100
  let (leftPadWidth, s) := randInt 110 150 s
  let (rightPadWidth, s) := randInt 120 160 s
  let (leftPadHeight, s) := randInt 60 90 s
  let (rightPadHeight, s) := randInt 60 90 s
  let (la, s) := randInt 40 140 s
  let leftAnchor := (platforms.getD 0 dummyPlatform).rect.left + la
  let (ra, s) := randInt 160 220 s
  let rightAnchor := (platforms.getLastD dummyPlatform).rect.right - ra
  let bouncePadLeft := markBouncy
    { rect := ⟨leftAnchor, baseY - leftPadHeight, leftPadWidth, 30⟩ } bounceStrength
  let (rpd, s) := randInt (-10) 20 s
  let bouncePadRight := markBouncy
    { rect := ⟨rightAnchor, baseY - rightPadHeight - rpd, rightPadWidth, 30⟩ }
    (bounceStrength + mkRat 8 100)
  let (elevatedWidth, s) := randInt 150 220 s
  let (elevatedHeight, s) := randInt 140 210 s
  let (elevatedOffset, s) :=
    randInt (pyInt ((levelLength : ℚ) * mkRat 25 100)) (pyInt ((levelLength : ℚ) * mkRat 55 100)) s
  let elevated : Platform := { rect := ⟨elevatedOffset, baseY - elevatedHeight, elevatedWidth, 28⟩ }
  let platforms := platforms ++ [bouncePadLeft, bouncePadRight, elevated]
  let (vy, s) := randInt 240 280 s
  let (vb, s) := randUnit s
  let verticalPlatform : Platform :=
    { rect := ⟨elevated.rect.centerx - 60, baseY - vy, 150, 26⟩, moving := true,
      boundsX := (elevated.rect.centerx - 60, elevated.rect.centerx + 100),
      boundsY := (baseY - 320, baseY - 120), speedX := mkRat 12 10, speedY := mkRat 24 10,
      isBouncy := true, bounceVelocity := BOUNCE_VELOCITY * (mkRat 105 100 + vb * mkRat 1 10) }
  let (hx, s) := randInt 80 140 s
  let (hy, s) := randInt 180 220 s
  let (hs, s) := randUnit s
  let horizontalPlatform : Platform :=
    { rect := ⟨bouncePadLeft.rect.right + hx, baseY - hy, 150, 28⟩, moving := true,
      boundsX := (bouncePadLeft.rect.right, levelLength - 280),
      boundsY := (baseY - 220, baseY - 180), speedX := mkRat 24 10 + hs * mkRat 8 10, speedY := 0 }
  let (ay, s) := randInt 260 320 s
  let (asp, s) := randUnit s
  let (ab, s) := randUnit s
  let aerialPad : Platform :=
    { rect := ⟨levelLength - 420, baseY - ay, 130, 24⟩, moving := true,
      boundsX := (levelLength - 540, levelLength - 160),
      boundsY := (baseY - 340, baseY - 240), speedX := mkRat 18 10 + asp * mkRat 7 10, speedY := 0,
      isBouncy := true, bounceVelocity := BOUNCE_VELOCITY * (mkRat 102 100 + ab * mkRat 8 100) }
  let movingPlatforms := [verticalPlatform, horizontalPlatform, aerialPad]
  let (sx, s) := randInt 36 68 s
  let spawnPoint := ((platforms.getD 0 dummyPlatform).rect.left + sx,
    (platforms.getD 0 dummyPlatform).rect.top - 60)
  let orbRects :=
    [Rect.mk (bouncePadLeft.rect.centerx - 18) (bouncePadLeft.rect.top - 110) 36 36,
     Rect.mk (aerialPad.rect.centerx - 18) (aerialPad.rect.top - 90) 36 36]
  let orbsG := attachPowerUps orbRects g
  let orbs := orbsG.1
  let g := orbsG.2
  let swordRects :=
    [Rect.mk (verticalPlatform.rect.centerx - 16) (verticalPlatform.rect.top - 110) 32 32,
     Rect.mk (elevated.rect.centerx - 16) (elevated.rect.top - 110) 32 32]
  let swordsG := attachPowerUps swordRects g
  let swords := swordsG.1
  let g := swordsG.2
  let shieldRects :=
    [Rect.mk (horizontalPlatform.rect.centerx - 18) (horizontalPlatform.rect.top - 100) 38 38,
     Rect.mk (bouncePadRight.rect.centerx - 18) (bouncePadRight.rect.top - 100) 38 38]
  let shieldsG := attachPowerUps shieldRects g
  let shields := shieldsG.1
  let g := shieldsG.2
  let grounds := platforms.dropLast.dropLast.dropLast
  let coinsG := attachCoins
    (bossCoinRects grounds bouncePadLeft bouncePadRight elevated horizontalPlatform) g
  let coins := coinsG.1
  let g := coinsG.2
  let (enemies, s) := bossEnemyLoop (platforms.take groundSections) s
  let (su, s) := randUnit s
  let shootersSG :=
    if su < mkRat 75 100 then
      let (pu, s) := randUnit s
      let perch := if pu < mkRat 55 100 then aerialPad else elevated
      let shooterRect : Rect := ⟨perch.rect.centerx - 22, perch.rect.top - 48, 40, 44⟩
      let facing : ℤ := if (shooterRect.centerx : ℚ) > mkRat levelLength 2 then -1 else 1
      let (fr, s) := randUnit s
      let shooterG := mkShooterDefaults shooterRect facing (mkRat 18 10 + fr * mkRat 5 10) g
      ([shooterG.1], s, shooterG.2)
    else ([], s, g)
  let shooters := shootersSG.1
  let s := shootersSG.2.1
  let g := shootersSG.2.2
  let goal : GoalFlag := { rect := ⟨levelLength - 140, baseY - 120, 60, 140⟩, flutter := mkRat 8 10 }
  let killPlane := SCREEN_HEIGHT + 240
  let (a1x, s) := randInt (pyInt ((levelLength : ℚ) * mkRat 25 100)) (pyInt ((levelLength : ℚ) * mkRat 4 10)) s
  let (a1y, s) := randInt 220 300 s
  let (a2x, s) := randInt (pyInt ((levelLength : ℚ) * mkRat 45 100)) (pyInt ((levelLength : ℚ) * mkRat 65 100)) s
  let (a2y, s) := randInt 240 320 s
  let (a3x, s) := randInt (pyInt ((levelLength : ℚ) * mkRat 3 10)) (pyInt ((levelLength : ℚ) * mkRat 55 100)) s
  let (a3y, s) := randInt 300 360 s
  let (a4x, s) := randInt (pyInt ((levelLength : ℚ) * mkRat 6 10)) (pyInt ((levelLength : ℚ) * mkRat 8 10)) s
  let (a4y, s) := randInt 220 320 s
  let anchors : List (ℚ × ℚ) :=
    [((a1x : ℚ), ((baseY - a1y : ℤ) : ℚ)), ((a2x : ℚ), ((baseY - a2y : ℤ) : ℚ)),
     ((a3x : ℚ), ((baseY - a3y : ℤ) : ℚ)), ((a4x : ℚ), ((baseY - a4y : ℤ) : ℚ))]
  let bossCx := pyInt ((levelLength : ℚ) * mkRat 58 100)
  let bossRect : Rect := ⟨bossCx - 48, baseY - 260 - 48, 96, 96⟩
  let bossG := mkBossDefaults bossRect anchors 6 200 (mkRat 22 10) g
  let boss := bossG.1
  let g := bossG.2
  ({ platforms := platforms
     movingPlatforms := movingPlatforms
     enemies := enemies
     shooters := shooters
     doubleJump := orbs
     swords := swords
     shields := shields
     coins := coins
     goal := goal
     spawnPoint := spawnPoint
     killPlane := killPlane
     length := levelLength
     theme := theme
     isBoss := true
     boss := some boss }, s, g)

/-! #### Level pack (generate_level_pack, lines 2214-2228) -/

def packLoop (bossIndex : ℤ) (themes : List ℕ) :
    ℕ → ℕ → List ℕ → List ℕ → List Blueprint × List ℕ × List ℕ
  | 0, _, s, g => ([], s, g)
  | remaining + 1, stage, s, g =>
      let bpSG :=
        if (stage : ℤ) = bossIndex then generateBossLevel stage (themes.getD stage 0) s g
        else generateLevel stage (themes.getD stage 0) s g
      let restSG := packLoop bossIndex themes remaining (stage + 1) bpSG.2.1 bpSG.2.2
      (bpSG.1 :: restSG.1, restSG.2.1, restSG.2.2)

/-- generate_level_pack: the seeded stream s stands for the draw stream
of random.Random(seed), so it is a function of the seed alone; the
global stream g stands for the state of the process-global random
module. -/
def generateLevelPack (count : ℕ) (s g : List ℕ) : List Blueprint × List ℕ × List ℕ :=
  let themes := (List.range count).map (· % 5)
  let (themes, s) := shuffleList themes s
  if count = 0 then ([], s, g)
  else
    let (bossIndex, s) := if count > 1 then randRange 1 count s else (0, s)
    packLoop bossIndex themes count 0 s g


/-! #### Horizontal blocking predicates and sweep invariants (C2) -/

/-- The blocking condition of the rightward sweep: vertical extents
overlap and the left edge of the platform lies in the travelled span. -/
def blocksRight (top bottom : ℤ) (right targetRight : ℚ) (plat : Platform) : Bool :=
  !(decide (bottom ≤ plat.rect.top) || decide (top ≥ plat.rect.bottom)) &&
  decide (right ≤ (plat.rect.left : ℚ)) && decide (targetRight > (plat.rect.left : ℚ))

/-- The blocking condition of the leftward sweep. -/
def blocksLeft (top bottom : ℤ) (left targetLeft : ℚ) (plat : Platform) : Bool :=
  !(decide (bottom ≤ plat.rect.top) || decide (top ≥ plat.rect.bottom)) &&
  decide (left ≥ (plat.rect.right : ℚ)) && decide (targetLeft < (plat.rect.right : ℚ))

/-- The platforms whose near edge would be crossed by this tick's
horizontal motion while vertically overlapping the player. -/
def blockingPlats (p : Player) (platforms : List Platform) (deltaX : ℚ) : List Platform :=
  if 0 < deltaX then
    platforms.filter
      (blocksRight p.rect.top p.rect.bottom (p.floatX + p.rect.w) (p.floatX + p.rect.w + deltaX))
  else
    platforms.filter (blocksLeft p.rect.top p.rect.bottom p.floatX (p.floatX + deltaX))

/-- The accumulator invariant of the rightward sweep fold. -/
def RightAcc (top bottom : ℤ) (right targetRight : ℚ) (seen : List Platform)
    (acc : ℚ × Option Platform) : Prop :=
  match acc.2 with
  | none => seen.filter (blocksRight top bottom right targetRight) = [] ∧
      acc.1 = targetRight - right
  | some c => c ∈ seen ∧ blocksRight top bottom right targetRight c = true ∧
      acc.1 = (c.rect.left : ℚ) - right ∧
      ∀ q ∈ seen, blocksRight top bottom right targetRight q = true →
        c.rect.left ≤ q.rect.left

/-- The accumulator invariant of the leftward sweep fold. -/
def LeftAcc (top bottom : ℤ) (left targetLeft : ℚ) (seen : List Platform)
    (acc : ℚ × Option Platform) : Prop :=
  match acc.2 with
  | none => seen.filter (blocksLeft top bottom left targetLeft) = [] ∧
      acc.1 = targetLeft - left
  | some c => c ∈ seen ∧ blocksLeft top bottom left targetLeft c = true ∧
      acc.1 = (c.rect.right : ℚ) - left ∧
      ∀ q ∈ seen, blocksLeft top bottom left targetLeft q = true →
        q.rect.right ≤ c.rect.right


/-! #### Seed determinism modulo global-module draws (C4) -/

/-- A coin with its global-module pulse draw erased. -/
def stripCoin (c : Coin) : Coin :=
  { c with pulse := 0 }

/-- A shooter with its global-module cooldown and pulse draws erased. -/
def stripShooter (sh : Shooter) : Shooter :=
  { sh with
    cooldown := 0
    pulse := 0 }

/-- A power-up with its global-module pulse draw erased. -/
def stripPowerUp (p : PowerUp) : PowerUp :=
  { p with pulse := 0 }

/-- A boss with its global-module pulse and initial roam-target draws
erased. -/
def stripBoss (b : Boss) : Boss :=
  { b with
    pulse := 0
    roamTarget := (0, 0) }

/-- A blueprint with every field fed by the process-global random module
erased; platforms, rectangles, counts and all seeded content remain. -/
def stripBlueprint (bp : Blueprint) : Blueprint :=
  { bp with
    shooters := bp.shooters.map stripShooter
    doubleJump := bp.doubleJump.map stripPowerUp
    swords := bp.swords.map stripPowerUp
    shields := bp.shields.map stripPowerUp
    coins := bp.coins.map stripCoin
    boss := bp.boss.map stripBoss }

/-! ## Properties and claims -/

lemma floor_le_pyRound (q : ℚ) : ⌊q⌋ ≤ pyRound q := by
  unfold pyRound
  split_ifs <;> omega

lemma le_pyRound (a : ℤ) (q : ℚ) (h : (a : ℚ) ≤ q) : a ≤ pyRound q :=
  le_trans (Int.le_floor.mpr h) (floor_le_pyRound q)

lemma mkRat_one_two : (mkRat 1 2 : ℚ) = 1/2 := by
  norm_num [Rat.mkRat_eq_div]

lemma pyRound_le (b : ℤ) (q : ℚ) (h : q ≤ (b : ℚ)) : pyRound q ≤ b := by
  have hfl : ⌊q⌋ ≤ b := (Int.floor_le_floor h).trans_eq (Int.floor_intCast b)
  have hlt : (1/2 : ℚ) ≤ q - ⌊q⌋ → ⌊q⌋ + 1 ≤ b := by
    intro hr
    have h1 : (⌊q⌋ : ℚ) < q := by linarith
    have h2 : (⌊q⌋ : ℚ) < (b : ℚ) := lt_of_lt_of_le h1 h
    exact Int.add_one_le_iff.mpr (by exact_mod_cast h2)
  unfold pyRound
  rw [mkRat_one_two]
  split_ifs with h1 h2 h3
  · exact hfl
  · exact hlt (le_of_lt h2)
  · exact hfl
  · exact hlt (le_of_not_lt h1)

lemma pyRound_intCast (n : ℤ) : pyRound (n : ℚ) = n := by
  unfold pyRound
  rw [mkRat_one_two, Int.floor_intCast]
  split_ifs with h1 h2 <;> simp_all <;> norm_num at h2

/-- The containment invariant of a kinematic platform: on every axis with
nonzero speed the exact position lies inside the travel bounds, and the
rectangle is the rounded position. -/
def MovingPlatformState.WithinBounds (p : MovingPlatformState) : Prop :=
  (p.speedX ≠ 0 → ((p.boundsX.1 : ℚ) ≤ p.floatX ∧ p.floatX + p.rect.w ≤ (p.boundsX.2 : ℚ))) ∧
  (p.speedY ≠ 0 → ((p.boundsY.1 : ℚ) ≤ p.floatY ∧ p.floatY + p.rect.h ≤ (p.boundsY.2 : ℚ))) ∧
  p.rect.x = pyRound p.floatX ∧ p.rect.y = pyRound p.floatY

instance (p : MovingPlatformState) : Decidable p.WithinBounds := by
  unfold MovingPlatformState.WithinBounds
  infer_instance

lemma axisAdvance_bounds (pos : ℚ) (size : ℤ) (bounds : ℤ × ℤ) (speed : ℚ) (dir : ℤ)
    (dt : ℚ) (h : speed ≠ 0 → ((bounds.1 : ℚ) ≤ pos ∧ pos + size ≤ (bounds.2 : ℚ))) :
    (speed ≠ 0 →
      (bounds.1 : ℚ) ≤ (MovingPlatformState.axisAdvance pos size bounds speed dir dt).1 ∧
      (MovingPlatformState.axisAdvance pos size bounds speed dir dt).1 + size ≤ (bounds.2 : ℚ)) ∧
    (speed = 0 → (MovingPlatformState.axisAdvance pos size bounds speed dir dt).1 = pos) := by
  unfold MovingPlatformState.axisAdvance
  constructor
  · intro hs
    obtain ⟨hl, hr⟩ := h hs
    simp only [if_pos hs]
    split_ifs with h1 h2 <;> dsimp only
    · exact ⟨le_refl _, by linarith⟩
    · push_cast
      exact ⟨by linarith, by linarith⟩
    · exact ⟨le_of_not_lt h1, by linarith [le_of_not_lt h2]⟩
  · intro hs
    simp [hs]

/-- The collision branch of MovingPlatform.update. -/
lemma update_eq_of_collision (p : MovingPlatformState) (dt : ℚ) (obstacles : List Rect)
    (hc : MovingPlatformState.collisionFound (p.candidateRect dt) p.rect obstacles = true) :
    p.update dt obstacles =
      { p with
        directionX := if p.speedX ≠ 0 then -(p.advanceX dt).2 else (p.advanceX dt).2
        directionY := if p.speedY ≠ 0 then -(p.advanceY dt).2 else (p.advanceY dt).2
        lastMoveX := 0
        lastMoveY := 0
        floatX := (p.rect.x : ℚ)
        floatY := (p.rect.y : ℚ) } := by
  unfold MovingPlatformState.update
  dsimp only
  rw [hc]
  simp

/-- The unobstructed branch of MovingPlatform.update. -/
lemma update_eq_of_clear (p : MovingPlatformState) (dt : ℚ) (obstacles : List Rect)
    (hc : MovingPlatformState.collisionFound (p.candidateRect dt) p.rect obstacles = false) :
    p.update dt obstacles =
      { p with
        directionX := (p.advanceX dt).2
        directionY := (p.advanceY dt).2
        floatX := (p.advanceX dt).1
        floatY := (p.advanceY dt).1
        rect := ⟨(p.candidateRect dt).x, (p.candidateRect dt).y, p.rect.w, p.rect.h⟩
        lastMoveX := (p.advanceX dt).1 - p.floatX
        lastMoveY := (p.advanceY dt).1 - p.floatY } := by
  unfold MovingPlatformState.update
  dsimp only
  rw [hc]
  simp

lemma withinBounds_update (p : MovingPlatformState) (h : p.WithinBounds) (dt : ℚ)
    (obstacles : List Rect) : (p.update dt obstacles).WithinBounds := by
  obtain ⟨hx, hy, hrx, hry⟩ := h
  have hax := axisAdvance_bounds p.floatX p.rect.w p.boundsX p.speedX p.directionX dt hx
  have hay := axisAdvance_bounds p.floatY p.rect.h p.boundsY p.speedY p.directionY dt hy
  rcases hc : MovingPlatformState.collisionFound (p.candidateRect dt) p.rect obstacles with _ | _
  · rw [update_eq_of_clear p dt obstacles hc]
    exact ⟨fun hs => hax.1 hs, fun hs => hay.1 hs, rfl, rfl⟩
  · rw [update_eq_of_collision p dt obstacles hc]
    refine ⟨fun hs => ?_, fun hs => ?_, ?_, ?_⟩
    · dsimp only at hs ⊢
      obtain ⟨hl, hr⟩ := hx hs
      have h1 : p.boundsX.1 ≤ pyRound p.floatX := le_pyRound _ _ hl
      have h2 : pyRound p.floatX + p.rect.w ≤ p.boundsX.2 := by
        have := pyRound_le (p.boundsX.2 - p.rect.w) p.floatX (by push_cast; linarith)
        omega
      rw [hrx]
      exact ⟨by exact_mod_cast h1, by exact_mod_cast h2⟩
    · dsimp only at hs ⊢
      obtain ⟨hl, hr⟩ := hy hs
      have h1 : p.boundsY.1 ≤ pyRound p.floatY := le_pyRound _ _ hl
      have h2 : pyRound p.floatY + p.rect.h ≤ p.boundsY.2 := by
        have := pyRound_le (p.boundsY.2 - p.rect.h) p.floatY (by push_cast; linarith)
        omega
      rw [hry]
      exact ⟨by exact_mod_cast h1, by exact_mod_cast h2⟩
    · dsimp only
      rw [hrx, pyRound_intCast]
    · dsimp only
      rw [hry, pyRound_intCast]

lemma withinBounds_run (p : MovingPlatformState) (h : p.WithinBounds) :
    ∀ steps : List (ℚ × List Rect), (p.run steps).WithinBounds := by
  intro steps
  induction steps generalizing p with
  | nil => exact h
  | cons step rest ih =>
      exact ih _ (withinBounds_update p h step.1 step.2)

lemma axisAdvance_flip (pos : ℚ) (size : ℤ) (bounds : ℤ × ℤ) (speed : ℚ) (dir : ℤ)
    (dt : ℚ) (hs : speed ≠ 0)
    (hcross : pos + speed * (dir : ℚ) * dt * 60 < (bounds.1 : ℚ) ∨
      (bounds.2 : ℚ) < pos + speed * (dir : ℚ) * dt * 60 + size) :
    (MovingPlatformState.axisAdvance pos size bounds speed dir dt).2 = -dir := by
  unfold MovingPlatformState.axisAdvance
  simp only [if_pos hs]
  split_ifs with h1 h2
  · rfl
  · rfl
  · exfalso
    rcases hcross with hcr | hcr
    · exact h1 hcr
    · exact h2 (by linarith)

lemma axisAdvance_keep (pos : ℚ) (size : ℤ) (bounds : ℤ × ℤ) (speed : ℚ) (dir : ℤ)
    (dt : ℚ)
    (hcross : ¬(pos + speed * (dir : ℚ) * dt * 60 < (bounds.1 : ℚ) ∨
      (bounds.2 : ℚ) < pos + speed * (dir : ℚ) * dt * 60 + size)) :
    (MovingPlatformState.axisAdvance pos size bounds speed dir dt).2 = dir := by
  unfold MovingPlatformState.axisAdvance
  push_neg at hcross
  rcases eq_or_ne speed 0 with hs | hs
  · simp [hs]
  · rw [if_pos hs]
    dsimp only
    rw [if_neg (not_lt.mpr hcross.1), if_neg (not_lt.mpr hcross.2)]

lemma axisAdvance_dir_of_speed_zero (pos : ℚ) (size : ℤ) (bounds : ℤ × ℤ) (dir : ℤ)
    (dt : ℚ) (speed : ℚ) (hs : speed = 0) :
    (MovingPlatformState.axisAdvance pos size bounds speed dir dt).2 = dir := by
  unfold MovingPlatformState.axisAdvance
  simp [hs]

/-- C3 (amended): containment is invariant under any tick sequence. On
an obstacle collision the platform does not move, reports a zero
displacement, and each active axis ends the tick with the negation of
its bound-clamped direction: a net flip when no travel bound was
crossed by the proposed motion, and no net change when the same tick
also reached a bound (the bound flip and the collision flip cancel);
an axis with zero speed keeps its direction. Reaching a travel bound
in an unobstructed tick flips the direction of that axis, with the
realized displacement the clamped, generally nonzero, move. -/
theorem kinematic_platform_contract (p : MovingPlatformState) (hInv : p.WithinBounds) :
    (∀ steps : List (ℚ × List Rect), (p.run steps).WithinBounds) ∧
    (∀ (dt : ℚ) (obstacles : List Rect),
      MovingPlatformState.collisionFound (p.candidateRect dt) p.rect obstacles = true →
      (p.update dt obstacles).lastMoveX = 0 ∧ (p.update dt obstacles).lastMoveY = 0 ∧
      (p.update dt obstacles).rect = p.rect ∧
      (p.speedX ≠ 0 →
        (¬(p.floatX + p.speedX * (p.directionX : ℚ) * dt * 60 < (p.boundsX.1 : ℚ) ∨
            (p.boundsX.2 : ℚ) < p.floatX + p.speedX * (p.directionX : ℚ) * dt * 60 + p.rect.w) →
          (p.update dt obstacles).directionX = -p.directionX) ∧
        ((p.floatX + p.speedX * (p.directionX : ℚ) * dt * 60 < (p.boundsX.1 : ℚ) ∨
            (p.boundsX.2 : ℚ) < p.floatX + p.speedX * (p.directionX : ℚ) * dt * 60 + p.rect.w) →
          (p.update dt obstacles).directionX = p.directionX)) ∧
      (p.speedX = 0 → (p.update dt obstacles).directionX = p.directionX) ∧
      (p.speedY ≠ 0 →
        (¬(p.floatY + p.speedY * (p.directionY : ℚ) * dt * 60 < (p.boundsY.1 : ℚ) ∨
            (p.boundsY.2 : ℚ) < p.floatY + p.speedY * (p.directionY : ℚ) * dt * 60 + p.rect.h) →
          (p.update dt obstacles).directionY = -p.directionY) ∧
        ((p.floatY + p.speedY * (p.directionY : ℚ) * dt * 60 < (p.boundsY.1 : ℚ) ∨
            (p.boundsY.2 : ℚ) < p.floatY + p.speedY * (p.directionY : ℚ) * dt * 60 + p.rect.h) →
          (p.update dt obstacles).directionY = p.directionY)) ∧
      (p.speedY = 0 → (p.update dt obstacles).directionY = p.directionY)) ∧
    (∀ (dt : ℚ) (obstacles : List Rect),
      MovingPlatformState.collisionFound (p.candidateRect dt) p.rect obstacles = false →
      p.speedX ≠ 0 →
      (p.floatX + p.speedX * (p.directionX : ℚ) * dt * 60 < (p.boundsX.1 : ℚ) ∨
        (p.boundsX.2 : ℚ) < p.floatX + p.speedX * (p.directionX : ℚ) * dt * 60 + p.rect.w) →
      (p.update dt obstacles).directionX = -p.directionX) := by
  refine ⟨withinBounds_run p hInv, fun dt obstacles hc => ?_, fun dt obstacles hc hs hcross => ?_⟩
  · rw [update_eq_of_collision p dt obstacles hc]
    refine ⟨rfl, rfl, rfl, fun hs => ⟨fun hk => ?_, fun hcr => ?_⟩, fun hs0 => ?_,
      fun hs => ⟨fun hk => ?_, fun hcr => ?_⟩, fun hs0 => ?_⟩
    · dsimp only
      rw [if_pos hs]
      unfold MovingPlatformState.advanceX
      rw [axisAdvance_keep p.floatX p.rect.w p.boundsX p.speedX p.directionX dt hk]
    · dsimp only
      rw [if_pos hs]
      unfold MovingPlatformState.advanceX
      rw [axisAdvance_flip p.floatX p.rect.w p.boundsX p.speedX p.directionX dt hs hcr, neg_neg]
    · dsimp only
      rw [if_neg (not_not_intro hs0)]
      unfold MovingPlatformState.advanceX
      exact axisAdvance_dir_of_speed_zero p.floatX p.rect.w p.boundsX p.directionX dt
        p.speedX hs0
    · dsimp only
      rw [if_pos hs]
      unfold MovingPlatformState.advanceY
      rw [axisAdvance_keep p.floatY p.rect.h p.boundsY p.speedY p.directionY dt hk]
    · dsimp only
      rw [if_pos hs]
      unfold MovingPlatformState.advanceY
      rw [axisAdvance_flip p.floatY p.rect.h p.boundsY p.speedY p.directionY dt hs hcr, neg_neg]
    · dsimp only
      rw [if_neg (not_not_intro hs0)]
      unfold MovingPlatformState.advanceY
      exact axisAdvance_dir_of_speed_zero p.floatY p.rect.h p.boundsY p.directionY dt
        p.speedY hs0
  · rw [update_eq_of_clear p dt obstacles hc]
    exact axisAdvance_flip p.floatX p.rect.w p.boundsX p.speedX p.directionX dt hs hcross

unseal Rat.add Rat.mul Rat.sub in
/-- C3 witness: a concrete in-bounds kinematic platform. -/
theorem kinematic_platform_contract_witness :
    (MovingPlatformState.init ⟨0, 0, 100, 20⟩ (0, 300) (0, 100) 2 1).WithinBounds ∧
    ∀ steps : List (ℚ × List Rect),
      ((MovingPlatformState.init ⟨0, 0, 100, 20⟩ (0, 300) (0, 100) 2 1).run steps).WithinBounds :=
  ⟨by decide,
   (kinematic_platform_contract (MovingPlatformState.init ⟨0, 0, 100, 20⟩ (0, 300) (0, 100) 2 1)
     (by decide)).1⟩

unseal Rat.add Rat.mul Rat.sub in
/-- C3 counterexample: a platform that reaches its right travel bound in
an unobstructed tick flips direction but reports the clamped nonzero
displacement, not zero. -/
theorem kinematic_platform_bound_cex :
    ((((MovingPlatformState.init ⟨50, 0, 100, 20⟩ (0, 200) (0, 0) 2 0)).boundsX.2 : ℚ) <
      (MovingPlatformState.init ⟨50, 0, 100, 20⟩ (0, 200) (0, 0) 2 0).floatX +
      (MovingPlatformState.init ⟨50, 0, 100, 20⟩ (0, 200) (0, 0) 2 0).speedX *
        ((MovingPlatformState.init ⟨50, 0, 100, 20⟩ (0, 200) (0, 0) 2 0).directionX : ℚ) *
        1 * 60 +
      (MovingPlatformState.init ⟨50, 0, 100, 20⟩ (0, 200) (0, 0) 2 0).rect.w) ∧
    ((MovingPlatformState.init ⟨50, 0, 100, 20⟩ (0, 200) (0, 0) 2 0).update 1 []).directionX = -1 ∧
    ((MovingPlatformState.init ⟨50, 0, 100, 20⟩ (0, 200) (0, 0) 2 0).update 1 []).lastMoveX = 50 ∧
    ((MovingPlatformState.init ⟨50, 0, 100, 20⟩ (0, 200) (0, 0) 2 0).update 1 []).lastMoveX ≠ 0 := by
  decide

/-! ### C7: walker take_hit contract -/

/-- C7: take_hit is ignored (with no field change) during the transient
invulnerability window; otherwise it decrements health, transitions to
the stomped dying state returning killed when health falls to zero or
below, and otherwise re-arms a 0.3 second window returning damaged, so
an immediate second call is ignored with no further change. -/
theorem enemy_take_hit_contract (e : Enemy) :
    (e.invulnerable > 0 → e.takeHit = ("ignored", e)) ∧
    (e.invulnerable ≤ 0 →
      e.takeHit.2.health = e.health - 1 ∧
      (e.health - 1 ≤ 0 → e.takeHit.1 = "killed" ∧ e.takeHit.2.stomped = true ∧
        e.takeHit.2.deathTimer = ENEMY_DEATH_DURATION) ∧
      (0 < e.health - 1 → e.takeHit.1 = "damaged" ∧ e.takeHit.2.invulnerable = mkRat 3 10 ∧
        e.takeHit.2.stomped = e.stomped ∧
        e.takeHit.2.takeHit = ("ignored", e.takeHit.2))) := by
  unfold Enemy.takeHit
  constructor
  · intro h
    simp [h]
  · intro h
    rw [if_neg (by linarith)]
    by_cases hh : e.health - 1 ≤ 0
    · simp only [if_pos hh]
      refine ⟨by simp, fun hc => by simp, fun hc => absurd hh (by linarith)⟩
    · simp only [if_neg hh]
      refine ⟨by simp, fun hc => absurd hc hh, fun hc => ⟨by simp, by simp, by simp, ?_⟩⟩
      norm_num [Rat.mkRat_eq_div]

/-! ### C8: double-jump stock -/

/-- C8 counterexample: use_double_jump decrements unconditionally, so a
player with zero stock ends with stock -1, refuting the claim that the
stock is never negative after a call. -/
theorem double_jump_stock_cex :
    ({ rect := ⟨0, 0, 40, 60⟩, doubleJumpStock := 0 : Player }.useDoubleJump).doubleJumpStock
      = -1 ∧
    ¬(0 ≤ ({ rect := ⟨0, 0, 40, 60⟩, doubleJumpStock := 0 : Player
      }.useDoubleJump).doubleJumpStock) := by
  exact ⟨rfl, by decide⟩

/-- C8 (amended): use_double_jump always leaves exactly one less charge;
the stock stays nonnegative whenever the call happens with positive
stock, which is the only way jump() invokes it, since jump() while
airborne with no stock is a no-op returning false. -/
theorem double_jump_contract (p : Player) :
    p.useDoubleJump.doubleJumpStock = p.doubleJumpStock - 1 ∧
    (1 ≤ p.doubleJumpStock → 0 ≤ p.useDoubleJump.doubleJumpStock) ∧
    (p.onGround = false → p.doubleJumpStock ≤ 0 → p.jump = (false, p)) ∧
    (p.onGround = false → p.threeDMode = false → 0 < p.doubleJumpStock →
      p.jump = (true, p.useDoubleJump) ∧ 0 ≤ p.jump.2.doubleJumpStock) := by
  refine ⟨rfl, fun h => ?_, fun hg hs => ?_, fun hg h3 hs => ?_⟩
  · show (0 : ℤ) ≤ p.doubleJumpStock - 1
    omega
  · unfold Player.jump Player.canGroundJump Player.canDoubleJump
    rcases h3 : p.threeDMode
    · simp [h3, hg, hs]
    · simp [h3]
  · unfold Player.jump Player.canGroundJump Player.canDoubleJump
    constructor
    · simp [h3, hg, hs]
    · simp [Player.jump, Player.canGroundJump, Player.canDoubleJump, h3, hg, hs,
        Player.useDoubleJump]
      omega


/-- C6 counterexample: a falling player overlapping a live shooter within
the stomp window defeats the shooter by stomping. -/
theorem shooter_stomp_cex :
    ({ rect := ⟨0, 100, 46, 52⟩, cooldown := 1, pulse := 0 : Shooter }).stomped = false ∧
    (shooterContactStep { rect := ⟨0, 60, 40, 60⟩, velY := 5 }
      { rect := ⟨0, 100, 46, 52⟩, cooldown := 1, pulse := 0 }).2.2.stomped = true ∧
    (shooterContactStep { rect := ⟨0, 60, 40, 60⟩, velY := 5 }
      { rect := ⟨0, 100, 46, 52⟩, cooldown := 1, pulse := 0 }).1 = .stompKilled := by
  refine ⟨rfl, ?_, ?_⟩ <;> decide

/-- C6 (amended): shooters are defeated by player stomps (a falling
contact within the 24 pixel window sets stomped) and by sword-beam
hitbox contact; boss body contact never changes the boss state, in
particular never damages it. -/
theorem weapon_gating_contract (p : Player) (sh : Shooter) (b : Boss) (hitbox : Rect) :
    (sh.stomped = false → p.rect.colliderect sh.rect = true → p.velY > 0 →
      p.rect.bottom - sh.rect.top < 24 →
      (shooterContactStep p sh).2.2.stomped = true ∧
      (shooterContactStep p sh).1 = .stompKilled) ∧
    ((bossContactStep p b).2.2 = b) ∧
    (sh.stomped = false → hitbox.colliderect sh.rect = true →
      (slashShooterStep hitbox sh).stomped = true) := by
  refine ⟨fun hs hc hv hn => ?_, ?_, fun hs hc => ?_⟩
  · unfold shooterContactStep
    rw [if_neg (by simp [hs]), if_pos hc, if_pos ⟨hv, hn⟩]
    exact ⟨rfl, rfl⟩
  · simp only [bossContactStep]
    split_ifs <;> rfl
  · unfold slashShooterStep
    rw [if_neg (by simp [hs]), if_pos hc]

lemma goalReady_false_of_coins (st : GoalCheckState) (h : 0 < remainingCoins st.coins) :
    goalReady st = false := by
  unfold goalReady
  have hz : decide (remainingCoins st.coins = 0) = false := by
    simp only [decide_eq_false_iff_not]
    omega
  split_ifs <;> simp [hz]

lemma goalReady_false_of_boss (st : GoalCheckState) (b : Boss) (hb : st.isBossStage = true)
    (hsome : st.boss = some b) (hdef : b.defeated = false) : goalReady st = false := by
  unfold goalReady
  rw [if_pos hb, hsome]
  simp [hdef]

lemma goalReady_true (st : GoalCheckState) (hz : remainingCoins st.coins = 0)
    (hboss : st.isBossStage = true → ∀ b, st.boss = some b → b.defeated = true) :
    goalReady st = true := by
  unfold goalReady
  split_ifs with hb
  · rcases hob : st.boss with _ | b
    · simp [hz]
    · simp [hz, hboss hb b hob]
  · simp [hz]

/-- C9: the goal branch is inactive while any coin is uncollected, and
while a boss-stage boss is undefeated; with every coin collected (and
the boss condition met) it is active exactly on contact, and any
non-inactive outcome certifies that the coin count is zero and contact
happened. -/
theorem goal_gating_contract (st : GoalCheckState) :
    (0 < remainingCoins st.coins → handleGoal st = .inactive) ∧
    (∀ b, st.isBossStage = true → st.boss = some b → b.defeated = false →
      handleGoal st = .inactive) ∧
    (remainingCoins st.coins = 0 →
      (st.isBossStage = true → ∀ b, st.boss = some b → b.defeated = true) →
      st.playerRect.colliderect (st.goal.rect.inflate 40 40) = true →
      handleGoal st ≠ .inactive) ∧
    (handleGoal st ≠ .inactive → remainingCoins st.coins = 0 ∧
      st.playerRect.colliderect (st.goal.rect.inflate 40 40) = true) := by
  refine ⟨fun h => ?_, fun b hb hsome hdef => ?_, fun hz hboss hcol => ?_, fun hne => ?_⟩
  · unfold handleGoal
    rw [goalReady_false_of_coins st h]
    simp
  · unfold handleGoal
    rw [goalReady_false_of_boss st b hb hsome hdef]
    simp
  · unfold handleGoal
    rw [goalReady_true st hz hboss, hcol]
    simp only [Bool.and_self, if_true]
    split_ifs <;> simp
  · unfold handleGoal at hne
    by_cases hcond : (goalReady st && st.playerRect.colliderect (st.goal.rect.inflate 40 40))
       = true
    · rcases Bool.and_eq_true .. |>.mp hcond with ⟨h1, h2⟩
      refine ⟨?_, h2⟩
      unfold goalReady at h1
      split_ifs at h1 with hb
      · rcases Bool.and_eq_true .. |>.mp h1 with ⟨h3, -⟩
        simpa using h3
      · simpa using h1
    · rw [if_neg (by simpa using hcond)] at hne
      exact absurd rfl hne

/-- C10: a stomp contact on a live walker (falling, bottom within 22
pixels of the enemy top) rebounds the player upward at 0.6 of the jump
impulse, lifts it out of the ground state, snaps its bottom to the
enemy top, raises the invincibility timer to at least the stomp
protection duration before take_hit runs on the untouched enemy, and
never costs a life on that contact. -/
theorem stomp_protection_contract (p : Player) (e : Enemy)
    (hstomped : e.stomped = false)
    (hcol : p.rect.colliderect e.rect = true)
    (hfall : p.velY > 0)
    (hnear : p.rect.bottom - e.rect.top < 22) :
    (enemyContactStep p e).2.1.velY = PLAYER_JUMP * mkRat 6 10 ∧
    (enemyContactStep p e).2.1.onGround = false ∧
    (enemyContactStep p e).2.1.rect.bottom = e.rect.top ∧
    STOMP_PROTECT_DURATION ≤ (enemyContactStep p e).2.1.invincibleTimer ∧
    (enemyContactStep p e).2.2 = e.takeHit.2 ∧
    (enemyContactStep p e).1 = .stompHit e.takeHit.1 ∧
    (enemyContactStep p e).1 ≠ .lifeLost := by
  unfold enemyContactStep
  rw [if_neg (by simp [hstomped]), if_pos hcol, if_pos ⟨hfall, hnear⟩]
  refine ⟨rfl, rfl, ?_, ?_, rfl, rfl, by simp⟩
  · dsimp only [Rect.withBottom, Rect.bottom]
    omega
  · dsimp only
    exact le_max_right _ _

unseal Rat.add Rat.mul Rat.sub in
/-- C10 witness: a concrete stomp contact. -/
theorem stomp_protection_contract_witness :
    ({ rect := ⟨10, 102, 42, 42⟩, patrol := (0, 200) : Enemy }).stomped = false ∧
    ({ rect := ⟨0, 60, 40, 60⟩, velY := 8 : Player }).rect.colliderect
      ({ rect := ⟨10, 102, 42, 42⟩, patrol := (0, 200) : Enemy }).rect = true ∧
    ({ rect := ⟨0, 60, 40, 60⟩, velY := 8 : Player }).velY > 0 ∧
    ({ rect := ⟨0, 60, 40, 60⟩, velY := 8 : Player }).rect.bottom -
      ({ rect := ⟨10, 102, 42, 42⟩, patrol := (0, 200) : Enemy }).rect.top < 22 ∧
    STOMP_PROTECT_DURATION ≤
      (enemyContactStep { rect := ⟨0, 60, 40, 60⟩, velY := 8 }
        { rect := ⟨10, 102, 42, 42⟩, patrol := (0, 200) }).2.1.invincibleTimer :=
  ⟨by decide, by decide, by decide, by decide,
   (stomp_protection_contract { rect := ⟨0, 60, 40, 60⟩, velY := 8 }
     { rect := ⟨10, 102, 42, 42⟩, patrol := (0, 200) }
     (by decide) (by decide) (by decide) (by decide)).2.2.2.1⟩


/-- C1: when the downward sweep of _vertical_collisions detects a
platform (any incoming fall speed with positive delta), a non-bouncy
platform leaves the player resting exactly on its top with zero
vertical velocity, grounded, and remembered as the ground reference;
a bouncy platform instead sets the vertical velocity to its configured
bounce velocity, leaves the player airborne with no ground reference,
and flags the bounce effect. -/
theorem vertical_landing_contract (p : Player) (platforms : List Platform) (deltaY : ℚ)
    (previousBottom : ℤ) (wasOnGround : Bool) (plat : Platform)
    (hd : 0 < deltaY)
    (hsweep : (p.verticalSweep platforms deltaY).2 = some plat) :
    (plat.isBouncy = false →
      (p.verticalCollisions platforms deltaY previousBottom wasOnGround).2.rect.bottom
        = plat.rect.top ∧
      (p.verticalCollisions platforms deltaY previousBottom wasOnGround).2.velY = 0 ∧
      (p.verticalCollisions platforms deltaY previousBottom wasOnGround).2.onGround = true ∧
      (p.verticalCollisions platforms deltaY previousBottom wasOnGround).2.groundPlatform
        = some plat) ∧
    (plat.isBouncy = true →
      (p.verticalCollisions platforms deltaY previousBottom wasOnGround).2.velY
        = plat.bounceVelocity ∧
      (p.verticalCollisions platforms deltaY previousBottom wasOnGround).2.onGround = false ∧
      (p.verticalCollisions platforms deltaY previousBottom wasOnGround).2.pendingBounce
        = some plat ∧
      (p.verticalCollisions platforms deltaY previousBottom wasOnGround).2.rect.bottom
        = plat.rect.top ∧
      (p.verticalCollisions platforms deltaY previousBottom wasOnGround).2.groundPlatform
        = none) := by
  unfold Player.verticalCollisions
  rw [if_neg (ne_of_gt hd)]
  dsimp only
  rw [hsweep]
  constructor
  · intro hb
    simp only [hb, if_pos hd, Bool.false_eq_true, if_false, if_true]
    simp only [gt_iff_lt, lt_irrefl, and_false, if_false, Bool.not_true, Bool.false_eq_true]
    refine ⟨?_, by first | trivial | rfl, by first | trivial | rfl,
      by first | trivial | rfl⟩
    dsimp only [Rect.withBottom, Rect.bottom]
    omega
  · intro hb
    simp only [hb, if_pos hd, if_true]
    simp only [Bool.false_eq_true, false_and, if_false, Bool.not_false, if_true]
    refine ⟨by first | trivial | rfl, by first | trivial | rfl, by first | trivial | rfl,
      ?_, by first | trivial | rfl⟩
    dsimp only [Rect.withBottom, Rect.bottom]
    omega

unseal Rat.add Rat.mul Rat.sub in
/-- C1 witness: the spec scenario platform spanning x 100..300 at
y 500 with height 20; a player falling at speed 10 whose bottom is at
495 is snapped to rest exactly on top. -/
theorem vertical_landing_contract_witness :
    (0 : ℚ) < 10 ∧
    (({ rect := ⟨120, 435, 40, 60⟩, velY := 10, floatY := 435 : Player }).verticalSweep
        [{ rect := ⟨100, 500, 200, 20⟩ }] 10).2 = some { rect := ⟨100, 500, 200, 20⟩ } ∧
    (({ rect := ⟨120, 435, 40, 60⟩, velY := 10, floatY := 435 : Player }).verticalCollisions
        [{ rect := ⟨100, 500, 200, 20⟩ }] 10 495 false).2.rect.bottom = 500 ∧
    (({ rect := ⟨120, 435, 40, 60⟩, velY := 10, floatY := 435 : Player }).verticalCollisions
        [{ rect := ⟨100, 500, 200, 20⟩ }] 10 495 false).2.velY = 0 ∧
    (({ rect := ⟨120, 435, 40, 60⟩, velY := 10, floatY := 435 : Player }).verticalCollisions
        [{ rect := ⟨100, 500, 200, 20⟩ }] 10 495 false).2.onGround = true := by
  refine ⟨by decide, by decide, ?_⟩
  have h := vertical_landing_contract { rect := ⟨120, 435, 40, 60⟩, velY := 10, floatY := 435 }
    [{ rect := ⟨100, 500, 200, 20⟩ }] 10 495 false { rect := ⟨100, 500, 200, 20⟩ }
    (by decide) (by decide)
  obtain ⟨h1, h2, h3, -⟩ := h.1 rfl
  exact ⟨h1, h2, h3⟩

lemma sweepRightStep_inv (top bottom : ℤ) (right targetRight : ℚ)
    (seen : List Platform) (acc : ℚ × Option Platform) (plat : Platform)
    (h : RightAcc top bottom right targetRight seen acc) :
    RightAcc top bottom right targetRight (seen ++ [plat])
      (Player.sweepRightStep top bottom right targetRight acc plat) := by
  obtain ⟨m, copt⟩ := acc
  rcases hbl : blocksRight top bottom right targetRight plat with _ | _
  · -- not blocking: the step leaves the accumulator unchanged
    have hstep : Player.sweepRightStep top bottom right targetRight (m, copt) plat
        = (m, copt) := by
      unfold Player.sweepRightStep
      unfold blocksRight at hbl
      rcases hv : (decide (bottom ≤ plat.rect.top) || decide (top ≥ plat.rect.bottom)) with _ | _
      · rw [if_neg (by simpa using hv)]
        rw [hv] at hbl
        simp only [Bool.not_false, Bool.true_and, Bool.and_eq_false_iff,
          decide_eq_false_iff_not, not_le, not_lt] at hbl
        rw [if_neg]
        rintro ⟨h1, h2⟩
        rcases hbl with hbl | hbl
        · exact absurd h1 (not_le.mpr hbl)
        · exact absurd h2 (not_lt.mpr (by exact_mod_cast hbl))
      · rw [if_pos (by simpa using hv)]
    rw [hstep]
    unfold RightAcc at h ⊢
    rcases copt with _ | c <;> dsimp only at h ⊢
    · refine ⟨?_, h.2⟩
      rw [List.filter_append]
      simp [h.1, hbl]
    · refine ⟨List.mem_append_left _ h.1, h.2.1, h.2.2.1, fun q hq hbq => ?_⟩
      rcases List.mem_append.mp hq with hq | hq
      · exact h.2.2.2 q hq hbq
      · rcases List.mem_singleton.mp hq
        rw [hbq] at hbl
        cases hbl
  · -- blocking: the step may take the platform
    have hcond : ¬(bottom ≤ plat.rect.top ∨ top ≥ plat.rect.bottom) ∧
        right ≤ (plat.rect.left : ℚ) ∧ targetRight > (plat.rect.left : ℚ) := by
      unfold blocksRight at hbl
      simp only [Bool.and_eq_true, Bool.not_eq_true', Bool.or_eq_false_iff,
        decide_eq_false_iff_not, decide_eq_true_eq] at hbl
      exact ⟨fun hor => hor.elim hbl.1.1.1 hbl.1.1.2, hbl.1.2, hbl.2⟩
    have hstep : Player.sweepRightStep top bottom right targetRight (m, copt) plat =
        (if (plat.rect.left : ℚ) - right < m
         then (max ((plat.rect.left : ℚ) - right) 0, some plat) else (m, copt)) := by
      unfold Player.sweepRightStep
      rw [if_neg hcond.1, if_pos ⟨hcond.2.1, hcond.2.2⟩]
    rw [hstep]
    have hmax : max ((plat.rect.left : ℚ) - right) 0 = (plat.rect.left : ℚ) - right :=
      max_eq_left (by linarith [hcond.2.1])
    unfold RightAcc at h ⊢
    rcases copt with _ | c <;> dsimp only at h
    · rw [if_pos (by rw [h.2]; linarith [hcond.2.2])]
      refine ⟨List.mem_append_right _ (List.mem_singleton_self plat), hbl,
        by rw [hmax], fun q hq hbq => ?_⟩
      rcases List.mem_append.mp hq with hq | hq
      · exact absurd (List.mem_filter.mpr ⟨hq, hbq⟩) (by simp [h.1])
      · rw [List.mem_singleton.mp hq]
    · by_cases hlt : (plat.rect.left : ℚ) - right < m
      · rw [if_pos hlt]
        refine ⟨List.mem_append_right _ (List.mem_singleton_self plat), hbl,
          by rw [hmax], fun q hq hbq => ?_⟩
        rcases List.mem_append.mp hq with hq | hq
        · have hle := h.2.2.2 q hq hbq
          have hpc : (plat.rect.left : ℚ) < (c.rect.left : ℚ) := by
            rw [h.2.2.1] at hlt
            linarith
          have : (plat.rect.left : ℤ) < c.rect.left := by exact_mod_cast hpc
          omega
        · rw [List.mem_singleton.mp hq]
      · rw [if_neg hlt]
        refine ⟨List.mem_append_left _ h.1, h.2.1, h.2.2.1, fun q hq hbq => ?_⟩
        rcases List.mem_append.mp hq with hq | hq
        · exact h.2.2.2 q hq hbq
        · rw [List.mem_singleton.mp hq]
          rw [h.2.2.1] at hlt
          have : (c.rect.left : ℚ) ≤ (plat.rect.left : ℚ) := by linarith [not_lt.mp hlt]
          exact_mod_cast this

lemma sweepRight_fold (top bottom : ℤ) (right targetRight : ℚ)
    (l seen : List Platform) (acc : ℚ × Option Platform)
    (h : RightAcc top bottom right targetRight seen acc) :
    RightAcc top bottom right targetRight (seen ++ l)
      (l.foldl (Player.sweepRightStep top bottom right targetRight) acc) := by
  induction l generalizing seen acc with
  | nil => simpa using h
  | cons plat rest ih =>
      have hstep := sweepRightStep_inv top bottom right targetRight seen acc plat h
      have := ih (seen ++ [plat]) _ hstep
      simpa [List.append_assoc] using this

lemma sweepLeftStep_inv (top bottom : ℤ) (left targetLeft : ℚ)
    (seen : List Platform) (acc : ℚ × Option Platform) (plat : Platform)
    (h : LeftAcc top bottom left targetLeft seen acc) :
    LeftAcc top bottom left targetLeft (seen ++ [plat])
      (Player.sweepLeftStep top bottom left targetLeft acc plat) := by
  obtain ⟨m, copt⟩ := acc
  rcases hbl : blocksLeft top bottom left targetLeft plat with _ | _
  · have hstep : Player.sweepLeftStep top bottom left targetLeft (m, copt) plat
        = (m, copt) := by
      unfold Player.sweepLeftStep
      unfold blocksLeft at hbl
      rcases hv : (decide (bottom ≤ plat.rect.top) || decide (top ≥ plat.rect.bottom)) with _ | _
      · rw [if_neg (by simpa using hv)]
        rw [hv] at hbl
        simp only [Bool.not_false, Bool.true_and, Bool.and_eq_false_iff,
          decide_eq_false_iff_not, not_le, not_lt] at hbl
        rw [if_neg]
        rintro ⟨h1, h2⟩
        rcases hbl with hbl | hbl
        · exact absurd h1 (not_le.mpr hbl)
        · exact absurd h2 (not_lt.mpr (by exact_mod_cast hbl))
      · rw [if_pos (by simpa using hv)]
    rw [hstep]
    unfold LeftAcc at h ⊢
    rcases copt with _ | c <;> dsimp only at h ⊢
    · refine ⟨?_, h.2⟩
      rw [List.filter_append]
      simp [h.1, hbl]
    · refine ⟨List.mem_append_left _ h.1, h.2.1, h.2.2.1, fun q hq hbq => ?_⟩
      rcases List.mem_append.mp hq with hq | hq
      · exact h.2.2.2 q hq hbq
      · rcases List.mem_singleton.mp hq
        rw [hbq] at hbl
        cases hbl
  · have hcond : ¬(bottom ≤ plat.rect.top ∨ top ≥ plat.rect.bottom) ∧
        left ≥ (plat.rect.right : ℚ) ∧ targetLeft < (plat.rect.right : ℚ) := by
      unfold blocksLeft at hbl
      simp only [Bool.and_eq_true, Bool.not_eq_true', Bool.or_eq_false_iff,
        decide_eq_false_iff_not, decide_eq_true_eq] at hbl
      exact ⟨fun hor => hor.elim hbl.1.1.1 hbl.1.1.2, hbl.1.2, hbl.2⟩
    have hstep : Player.sweepLeftStep top bottom left targetLeft (m, copt) plat =
        (if (plat.rect.right : ℚ) - left > m
         then (min ((plat.rect.right : ℚ) - left) 0, some plat) else (m, copt)) := by
      unfold Player.sweepLeftStep
      rw [if_neg hcond.1, if_pos ⟨hcond.2.1, hcond.2.2⟩]
    rw [hstep]
    have hmin : min ((plat.rect.right : ℚ) - left) 0 = (plat.rect.right : ℚ) - left :=
      min_eq_left (by linarith [hcond.2.1])
    unfold LeftAcc at h ⊢
    rcases copt with _ | c <;> dsimp only at h
    · rw [if_pos (by rw [h.2]; linarith [hcond.2.2])]
      refine ⟨List.mem_append_right _ (List.mem_singleton_self plat), hbl,
        by rw [hmin], fun q hq hbq => ?_⟩
      rcases List.mem_append.mp hq with hq | hq
      · exact absurd (List.mem_filter.mpr ⟨hq, hbq⟩) (by simp [h.1])
      · rw [List.mem_singleton.mp hq]
    · by_cases hlt : (plat.rect.right : ℚ) - left > m
      · rw [if_pos hlt]
        refine ⟨List.mem_append_right _ (List.mem_singleton_self plat), hbl,
          by rw [hmin], fun q hq hbq => ?_⟩
        rcases List.mem_append.mp hq with hq | hq
        · have hle := h.2.2.2 q hq hbq
          have hpc : (c.rect.right : ℚ) < (plat.rect.right : ℚ) := by
            rw [h.2.2.1] at hlt
            linarith
          have : c.rect.right < plat.rect.right := by exact_mod_cast hpc
          omega
        · rw [List.mem_singleton.mp hq]
      · rw [if_neg hlt]
        refine ⟨List.mem_append_left _ h.1, h.2.1, h.2.2.1, fun q hq hbq => ?_⟩
        rcases List.mem_append.mp hq with hq | hq
        · exact h.2.2.2 q hq hbq
        · rw [List.mem_singleton.mp hq]
          rw [h.2.2.1] at hlt
          have : (plat.rect.right : ℚ) ≤ (c.rect.right : ℚ) := by linarith [not_lt.mp hlt]
          exact_mod_cast this

lemma sweepLeft_fold (top bottom : ℤ) (left targetLeft : ℚ)
    (l seen : List Platform) (acc : ℚ × Option Platform)
    (h : LeftAcc top bottom left targetLeft seen acc) :
    LeftAcc top bottom left targetLeft (seen ++ l)
      (l.foldl (Player.sweepLeftStep top bottom left targetLeft) acc) := by
  induction l generalizing seen acc with
  | nil => simpa using h
  | cons plat rest ih =>
      have hstep := sweepLeftStep_inv top bottom left targetLeft seen acc plat h
      have := ih (seen ++ [plat]) _ hstep
      simpa [List.append_assoc] using this


/-- C2: with nonzero horizontal motion and at least one blocking
platform (vertical extents overlapping, near edge crossed this tick),
_horizontal_collisions zeroes the horizontal velocity and stops the
player exactly at the nearest blocking edge: the resolved rectangle
touches the near edge of a blocking platform that minimizes the edge
distance, and the player never ends past any blocking edge. -/
theorem horizontal_nearest_edge_contract (p : Player) (platforms : List Platform) (deltaX : ℚ)
    (hd : deltaX ≠ 0) (hb : blockingPlats p platforms deltaX ≠ []) :
    (p.horizontalCollisions platforms deltaX).velX = 0 ∧
    (0 < deltaX → ∃ c ∈ blockingPlats p platforms deltaX,
      (p.horizontalCollisions platforms deltaX).rect.right = c.rect.left ∧
      ∀ q ∈ blockingPlats p platforms deltaX,
        c.rect.left ≤ q.rect.left ∧
        (p.horizontalCollisions platforms deltaX).rect.right ≤ q.rect.left) ∧
    (deltaX < 0 → ∃ c ∈ blockingPlats p platforms deltaX,
      (p.horizontalCollisions platforms deltaX).rect.left = c.rect.right ∧
      ∀ q ∈ blockingPlats p platforms deltaX,
        q.rect.right ≤ c.rect.right ∧
        q.rect.right ≤ (p.horizontalCollisions platforms deltaX).rect.left) := by
  by_cases hpos : 0 < deltaX
  · have hsw : p.horizontalSweep platforms deltaX =
        platforms.foldl (Player.sweepRightStep p.rect.top p.rect.bottom
          (p.floatX + (p.rect.w : ℚ)) (p.floatX + (p.rect.w : ℚ) + deltaX)) (deltaX, none) := by
      unfold Player.horizontalSweep
      rw [if_pos hpos]
    have hacc : RightAcc p.rect.top p.rect.bottom (p.floatX + (p.rect.w : ℚ))
        (p.floatX + (p.rect.w : ℚ) + deltaX) ([] ++ platforms)
        (p.horizontalSweep platforms deltaX) := by
      rw [hsw]
      exact sweepRight_fold _ _ _ _ platforms [] (deltaX, none) ⟨rfl, by ring⟩
    rw [List.nil_append] at hacc
    have hbp : blockingPlats p platforms deltaX = platforms.filter
        (blocksRight p.rect.top p.rect.bottom (p.floatX + (p.rect.w : ℚ))
          (p.floatX + (p.rect.w : ℚ) + deltaX)) := by
      unfold blockingPlats
      rw [if_pos hpos]
    rcases hc : (p.horizontalSweep platforms deltaX).2 with _ | c
    · exfalso
      unfold RightAcc at hacc
      rw [hc] at hacc
      exact hb (by rw [hbp]; exact hacc.1)
    · unfold RightAcc at hacc
      rw [hc] at hacc
      obtain ⟨hmem, hblc, hm, hmin⟩ := hacc
      have hres : p.horizontalCollisions platforms deltaX =
          { p with
            rect := p.rect.withRight c.rect.left
            floatX := ((p.rect.withRight c.rect.left).x : ℚ)
            velX := 0 } := by
        unfold Player.horizontalCollisions
        dsimp only
        rw [hc]
        dsimp only
        rw [if_pos hpos]
        rfl
      rw [hres]
      refine ⟨rfl, fun _ => ?_, fun hneg => absurd hpos (not_lt.mpr (le_of_lt hneg))⟩
      refine ⟨c, by rw [hbp]; exact List.mem_filter.mpr ⟨hmem, hblc⟩, ?_, fun q hq => ?_⟩
      · dsimp only [Rect.withRight, Rect.right]
        omega
      · rw [hbp] at hq
        have hql := hmin q (List.mem_filter.mp hq).1 (List.mem_filter.mp hq).2
        refine ⟨hql, ?_⟩
        dsimp only [Rect.withRight, Rect.right]
        omega
  · have hneg : deltaX < 0 := lt_of_le_of_ne (not_lt.mp hpos) hd
    have hsw : p.horizontalSweep platforms deltaX =
        platforms.foldl (Player.sweepLeftStep p.rect.top p.rect.bottom
          p.floatX (p.floatX + deltaX)) (deltaX, none) := by
      unfold Player.horizontalSweep
      rw [if_neg hpos]
    have hacc : LeftAcc p.rect.top p.rect.bottom p.floatX (p.floatX + deltaX)
        ([] ++ platforms) (p.horizontalSweep platforms deltaX) := by
      rw [hsw]
      exact sweepLeft_fold _ _ _ _ platforms [] (deltaX, none) ⟨rfl, by ring⟩
    rw [List.nil_append] at hacc
    have hbp : blockingPlats p platforms deltaX = platforms.filter
        (blocksLeft p.rect.top p.rect.bottom p.floatX (p.floatX + deltaX)) := by
      unfold blockingPlats
      rw [if_neg hpos]
    rcases hc : (p.horizontalSweep platforms deltaX).2 with _ | c
    · exfalso
      unfold LeftAcc at hacc
      rw [hc] at hacc
      exact hb (by rw [hbp]; exact hacc.1)
    · unfold LeftAcc at hacc
      rw [hc] at hacc
      obtain ⟨hmem, hblc, hm, hmin⟩ := hacc
      have hres : p.horizontalCollisions platforms deltaX =
          { p with
            rect := p.rect.withLeft c.rect.right
            floatX := ((p.rect.withLeft c.rect.right).x : ℚ)
            velX := 0 } := by
        unfold Player.horizontalCollisions
        dsimp only
        rw [hc]
        dsimp only
        rw [if_neg (by simpa using not_lt.mpr (le_of_lt hneg))]
        rfl
      rw [hres]
      refine ⟨rfl, fun hpos2 => absurd hpos2 hpos, fun _ => ?_⟩
      refine ⟨c, by rw [hbp]; exact List.mem_filter.mpr ⟨hmem, hblc⟩, ?_, fun q hq => ?_⟩
      · dsimp only [Rect.withLeft, Rect.left]
      · rw [hbp] at hq
        have hql := hmin q (List.mem_filter.mp hq).1 (List.mem_filter.mp hq).2
        refine ⟨hql, ?_⟩
        dsimp only [Rect.withLeft, Rect.left]
        omega

unseal Rat.add Rat.mul Rat.sub in
/-- C2 witness: two blocking walls to the right; the player stops at the
nearer left edge. -/
theorem horizontal_nearest_edge_contract_witness :
    (10 : ℚ) ≠ 0 ∧
    blockingPlats { rect := ⟨0, 0, 40, 60⟩, floatX := 0 : Player }
      [{ rect := ⟨55, 0, 30, 60⟩ }, { rect := ⟨45, 10, 30, 60⟩ }] 10 ≠ [] ∧
    (({ rect := ⟨0, 0, 40, 60⟩, floatX := 0 : Player }).horizontalCollisions
      [{ rect := ⟨55, 0, 30, 60⟩ }, { rect := ⟨45, 10, 30, 60⟩ }] 10).velX = 0 :=
  ⟨by norm_num, by decide,
   (horizontal_nearest_edge_contract { rect := ⟨0, 0, 40, 60⟩, floatX := 0 }
     [{ rect := ⟨55, 0, 30, 60⟩ }, { rect := ⟨45, 10, 30, 60⟩ }] 10
     (by norm_num) (by decide)).1⟩

lemma attachCoins_strip : ∀ (rects : List Rect) (g : List ℕ),
    ((attachCoins rects g).1).map stripCoin =
      rects.map (fun r => ({ rect := r, pulse := 0 } : Coin)) := by
  intro rects
  induction rects with
  | nil => intro g; rfl
  | cons r rest ih =>
      intro g
      have h : attachCoins (r :: rest) g =
          (({ rect := r, pulse := (randUnit g).1 * MATH_TAU } : Coin) ::
             (attachCoins rest (randUnit g).2).1,
           (attachCoins rest (randUnit g).2).2) := rfl
      rw [h]
      dsimp only [List.map_cons]
      rw [ih]
      rfl

lemma attachPowerUps_strip : ∀ (rects : List Rect) (g : List ℕ),
    ((attachPowerUps rects g).1).map stripPowerUp =
      rects.map (fun r => ({ rect := r, pulse := 0 } : PowerUp)) := by
  intro rects
  induction rects with
  | nil => intro g; rfl
  | cons r rest ih =>
      intro g
      have h : attachPowerUps (r :: rest) g =
          (({ rect := r, pulse := (randUnit g).1 * MATH_TAU } : PowerUp) ::
             (attachPowerUps rest (randUnit g).2).1,
           (attachPowerUps rest (randUnit g).2).2) := rfl
      rw [h]
      dsimp only [List.map_cons]
      rw [ih]
      rfl

lemma attachPowerUps_rects : ∀ (rects : List Rect) (g : List ℕ),
    ((attachPowerUps rects g).1).map (fun p => p.rect) = rects := by
  intro rects
  induction rects with
  | nil => intro g; rfl
  | cons r rest ih =>
      intro g
      have h : attachPowerUps (r :: rest) g =
          (({ rect := r, pulse := (randUnit g).1 * MATH_TAU } : PowerUp) ::
             (attachPowerUps rest (randUnit g).2).1,
           (attachPowerUps rest (randUnit g).2).2) := rfl
      rw [h]
      dsimp only [List.map_cons]
      rw [ih]

lemma mkShooterDefaults_strip (rect : Rect) (facing : ℤ) (fireRate : ℚ) (g : List ℕ) :
    stripShooter (mkShooterDefaults rect facing fireRate g).1 =
      { rect := rect, facing := facing, fireRate := fireRate, cooldown := 0, pulse := 0 } := rfl

lemma mkBossDefaults_strip (rect : Rect) (anchors : List (ℚ × ℚ)) (health : ℤ)
    (speed attackCooldown : ℚ) (g : List ℕ) :
    stripBoss (mkBossDefaults rect anchors health speed attackCooldown g).1 =
      { rect := rect, anchors := anchors, health := health, speed := speed,
        attackCooldown := attackCooldown, pulse := 0,
        roamBounds := setupRoamArea anchors rect, roamTarget := (0, 0), moveTimer := 0 } := rfl

lemma shooterLoop_indep (solidRects : List Rect) (shooterGoal : ℕ) :
    ∀ (plats : List Platform) (count : ℕ) (s g g' : List ℕ),
    ((shooterLoop solidRects shooterGoal plats count s g).1).map stripShooter =
      ((shooterLoop solidRects shooterGoal plats count s g').1).map stripShooter ∧
    (shooterLoop solidRects shooterGoal plats count s g).2.1 =
      (shooterLoop solidRects shooterGoal plats count s g').2.1 := by
  intro plats
  induction plats with
  | nil => intro count s g g'; exact ⟨rfl, rfl⟩
  | cons platform rest ih =>
      intro count s g g'
      by_cases h1 : count ≥ shooterGoal
      · have e : ∀ gg, shooterLoop solidRects shooterGoal (platform :: rest) count s gg =
            ([], s, gg) := by
          intro gg
          unfold shooterLoop
          rw [if_pos h1]
        rw [e g, e g']
        exact ⟨rfl, rfl⟩
      · by_cases h2 : ¬areaIsClear solidRects
            ((Rect.mk (platform.rect.left + 8) (platform.rect.top - 120)
              (platform.rect.w - 16) 120).withBottom (platform.rect.top - 6))
            (some platform.rect) = true
        · have e : ∀ gg, shooterLoop solidRects shooterGoal (platform :: rest) count s gg =
              shooterLoop solidRects shooterGoal rest count s gg := by
            intro gg
            conv_lhs => unfold shooterLoop
            dsimp only
            rw [if_neg h1, if_pos h2]
          rw [e g, e g']
          exact ih count s g g'
        · by_cases h3 : platform.rect.right - 46 - 20 ≤ platform.rect.left + 20
          · have e : ∀ gg, shooterLoop solidRects shooterGoal (platform :: rest) count s gg =
                shooterLoop solidRects shooterGoal rest count s gg := by
              intro gg
              conv_lhs => unfold shooterLoop
              dsimp only
              rw [if_neg h1, if_neg h2, if_pos h3]
            rw [e g, e g']
            exact ih count s g g'
          · have e : ∀ gg, shooterLoop solidRects shooterGoal (platform :: rest) count s gg =
                ((mkShooterDefaults
                    ⟨(randInt (platform.rect.left + 20) (platform.rect.right - 46 - 20) s).1,
                      platform.rect.top - 52, 46, 52⟩ 1 (mkRat 24 10) gg).1 ::
                  (shooterLoop solidRects shooterGoal rest (count + 1)
                    (randInt (platform.rect.left + 20) (platform.rect.right - 46 - 20) s).2
                    (mkShooterDefaults
                      ⟨(randInt (platform.rect.left + 20) (platform.rect.right - 46 - 20) s).1,
                        platform.rect.top - 52, 46, 52⟩ 1 (mkRat 24 10) gg).2).1,
                 (shooterLoop solidRects shooterGoal rest (count + 1)
                    (randInt (platform.rect.left + 20) (platform.rect.right - 46 - 20) s).2
                    (mkShooterDefaults
                      ⟨(randInt (platform.rect.left + 20) (platform.rect.right - 46 - 20) s).1,
                        platform.rect.top - 52, 46, 52⟩ 1 (mkRat 24 10) gg).2).2) := by
              intro gg
              conv_lhs => unfold shooterLoop
              dsimp only
              rw [if_neg h1, if_neg h2, if_neg h3]
            rw [e g, e g']
            have hih := ih (count + 1)
              (randInt (platform.rect.left + 20) (platform.rect.right - 46 - 20) s).2
              (mkShooterDefaults
                ⟨(randInt (platform.rect.left + 20) (platform.rect.right - 46 - 20) s).1,
                  platform.rect.top - 52, 46, 52⟩ 1 (mkRat 24 10) g).2
              (mkShooterDefaults
                ⟨(randInt (platform.rect.left + 20) (platform.rect.right - 46 - 20) s).1,
                  platform.rect.top - 52, 46, 52⟩ 1 (mkRat 24 10) g').2
            refine ⟨?_, hih.2⟩
            dsimp only [List.map_cons]
            rw [mkShooterDefaults_strip, mkShooterDefaults_strip, hih.1]

lemma generateLevel_indep (stage theme : ℕ) (s g g' : List ℕ) :
    stripBlueprint (generateLevel stage theme s g).1 =
      stripBlueprint (generateLevel stage theme s g').1 ∧
    (generateLevel stage theme s g).2.1 = (generateLevel stage theme s g').2.1 := by
  unfold generateLevel generateLevelFull
  dsimp only
  generalize buildSpine stage s = sp
  generalize sp.basePlatforms = base
  generalize buildFloating stage base sp.stream = FL
  generalize base ++ FL.1 = platforms
  generalize buildMovers stage base platforms sp.currentRight FL.2 = MV
  generalize platforms ++ MV.1 = pwm
  generalize enemyLoop stage pwm (platforms.drop 1).dropLast MV.2 = EN
  generalize pwm.map (fun x => x.rect) = solidR
  generalize coinSurfacePool base pwm solidR stage = pool
  generalize shuffleList pool EN.2 = SH1
  generalize randInt 5 6 SH1.2 = DD
  generalize coinSurfaces pwm SH1.1 (min (SH1.1.length : ℤ) DD.1).toNat = CS
  generalize CS.map (fun p => coinRectFor p.rect) = coinR
  generalize shuffleList (((base.drop 1).dropLast).filter fun p => decide (p.rect.w ≥ 120)) DD.2
    = SHC
  have hsh := shooterLoop_indep solidR (min (stage + 1) 3) SHC.1 0 SHC.2
    (attachCoins coinR g).2 (attachCoins coinR g').2
  rw [hsh.2]
  refine ⟨?_, rfl⟩
  unfold stripBlueprint
  dsimp only
  simp only [attachCoins_strip, attachPowerUps_strip, attachPowerUps_rects, hsh.1]

lemma generateBossLevel_indep (stage theme : ℕ) (s g g' : List ℕ) :
    stripBlueprint (generateBossLevel stage theme s g).1 =
      stripBlueprint (generateBossLevel stage theme s g').1 ∧
    (generateBossLevel stage theme s g).2.1 = (generateBossLevel stage theme s g').2.1 := by
  unfold generateBossLevel
  dsimp only
  split_ifs
  all_goals refine ⟨?_, rfl⟩
  all_goals unfold stripBlueprint
  all_goals dsimp only
  all_goals simp only [attachCoins_strip, attachPowerUps_strip, attachPowerUps_rects,
    mkShooterDefaults_strip, mkBossDefaults_strip, List.map_cons, List.map_nil, Option.map]

lemma packLoop_indep (bossIndex : ℤ) (themes : List ℕ) :
    ∀ (n stage : ℕ) (s g g' : List ℕ),
    ((packLoop bossIndex themes n stage s g).1).map stripBlueprint =
      ((packLoop bossIndex themes n stage s g').1).map stripBlueprint ∧
    (packLoop bossIndex themes n stage s g).2.1 =
      (packLoop bossIndex themes n stage s g').2.1 := by
  intro n
  induction n with
  | zero => intro stage s g g'; exact ⟨rfl, rfl⟩
  | succ m ih =>
      intro stage s g g'
      simp only [packLoop]
      by_cases hb : (stage : ℤ) = bossIndex
      · rw [if_pos hb, if_pos hb]
        have hB := generateBossLevel_indep stage (themes.getD stage 0) s g g'
        rw [hB.2]
        have hR := ih (stage + 1) (generateBossLevel stage (themes.getD stage 0) s g').2.1
          (generateBossLevel stage (themes.getD stage 0) s g).2.2
          (generateBossLevel stage (themes.getD stage 0) s g').2.2
        refine ⟨?_, hR.2⟩
        dsimp only [List.map_cons]
        rw [hB.1, hR.1]
      · rw [if_neg hb, if_neg hb]
        have hB := generateLevel_indep stage (themes.getD stage 0) s g g'
        rw [hB.2]
        have hR := ih (stage + 1) (generateLevel stage (themes.getD stage 0) s g').2.1
          (generateLevel stage (themes.getD stage 0) s g).2.2
          (generateLevel stage (themes.getD stage 0) s g').2.2
        refine ⟨?_, hR.2⟩
        dsimp only [List.map_cons]
        rw [hB.1, hR.1]

set_option maxRecDepth 4000 in
unseal Rat.add Rat.mul Rat.sub in
/-- C4 counterexample: the level-pack generator is not a function of the
seeded stream alone. With an identical seeded stream but two different
states of the process-global random module, the produced blueprints
differ: the ShooterEnemy cooldown and pulse default factories, the
collectible pulse default factories and the Boss pulse/initial roam
target draw on the process-global random module, not on the seeded rng
argument (GameMario.py lines 520-528, 1403-1421, 2214-2228). -/
theorem pack_global_dependence_cex :
    (generateLevelPack 1 (List.range 200) [0]).1 ≠
      (generateLevelPack 1 (List.range 200) [500]).1 := by
  decide

/-- C4 amended: erasing exactly the fields fed by the process-global
random module (shooter cooldown and pulse, collectible pulse phases,
boss pulse and initial roam target), the level pack is a function of the
seeded stream alone: for every stage count and seeded stream, any two
global-module states yield blueprint lists that agree after the erasure
— in particular every platform, rectangle, enemy, count and all stage
structure coincide. -/
theorem pack_seed_determinism (count : ℕ) (s g g' : List ℕ) :
    ((generateLevelPack count s g).1).map stripBlueprint =
      ((generateLevelPack count s g').1).map stripBlueprint := by
  unfold generateLevelPack
  dsimp only
  by_cases h0 : count = 0
  · rw [if_pos h0, if_pos h0]
  · rw [if_neg h0, if_neg h0]
    exact (packLoop_indep _ _ count 0 _ g g').1

/-! #### Reachability of generated surfaces (C5) -/

lemma clampZ_bounds (v lo hi : ℤ) (h : lo ≤ hi) :
    lo ≤ clampZ v lo hi ∧ clampZ v lo hi ≤ hi := by
  unfold clampZ
  omega

lemma randInt_bounds (a b : ℤ) (s : List ℕ) (h : a ≤ b) :
    a ≤ (randInt a b s).1 ∧ (randInt a b s).1 ≤ b := by
  unfold randInt drawNat
  dsimp only
  have hm : (0 : ℤ) < b - a + 1 := by omega
  have h1 := Int.emod_nonneg (s.headD 0 : ℤ) (by omega : b - a + 1 ≠ 0)
  have h2 := Int.emod_lt_of_pos (s.headD 0 : ℤ) hm
  omega

lemma maybeMakeBouncy_rect (p : Platform) (chance strength : ℚ) (s : List ℕ) :
    (maybeMakeBouncy p chance strength s).1.rect = p.rect := by
  unfold maybeMakeBouncy markBouncy
  dsimp only
  split_ifs <;> rfl

lemma randChoice_mem (l : List Platform) (d : Platform) (s : List ℕ) (h : l ≠ []) :
    (randChoice l d s).1 ∈ l := by
  unfold randChoice drawNat
  dsimp only
  have hlt : (s.headD 0) % l.length < l.length :=
    Nat.mod_lt _ (List.length_pos.mpr h)
  rw [List.getD_eq_getElem l d hlt]
  exact List.getElem_mem hlt

lemma swapAt_mem {α : Type} (l : List α) (i j : ℕ) {x : α} (h : x ∈ swapAt l i j) :
    x ∈ l := by
  unfold swapAt at h
  rcases hi : l.get? i with _ | a <;> rcases hj : l.get? j with _ | b <;>
    rw [hi, hj] at h
  · exact h
  · exact h
  · exact h
  · rcases List.mem_or_eq_of_mem_set h with h2 | h2
    · rcases List.mem_or_eq_of_mem_set h2 with h3 | h3
      · exact h3
      · exact h3 ▸ List.get?_mem hj
    · exact h2 ▸ List.get?_mem hi

lemma shuffleGo_mem {α : Type} :
    ∀ (n : ℕ) (l : List α) (s : List ℕ) {x : α},
      x ∈ (shuffleGo l n s).1 → x ∈ l := by
  intro n
  induction n with
  | zero => intro l s x h; exact h
  | succ i ih =>
      intro l s x h
      have h2 : x ∈ swapAt l (i + 1) ((drawNat s).1 % (i + 2)) := by
        have e : shuffleGo l (i + 1) s =
            shuffleGo (swapAt l (i + 1) ((drawNat s).1 % (i + 2))) i (drawNat s).2 := rfl
        rw [e] at h
        exact ih _ _ h
      exact swapAt_mem _ _ _ h2

lemma shuffleList_mem {α : Type} (l : List α) (s : List ℕ) {x : α}
    (h : x ∈ (shuffleList l s).1) : x ∈ l :=
  shuffleGo_mem _ _ _ h

lemma reach_of_base (base pwm : List Platform) (stage : ℕ) (p : Platform)
    (hp : p ∈ base) : isSurfaceReachable base pwm stage p = true := by
  unfold isSurfaceReachable
  rw [if_pos hp]

lemma reach_of_anchor (base pwm : List Platform) (stage : ℕ) (p a : Platform)
    (ha : a ∈ pwm) (h1 : a.rect.y > p.rect.y)
    (h2 : a.rect.y - p.rect.y ≤ 220 + 10 * (stage : ℤ))
    (h3 : ¬(a.rect.right + 40 < p.rect.left))
    (h4 : ¬(a.rect.left - 40 > p.rect.right)) :
    isSurfaceReachable base pwm stage p = true := by
  unfold isSurfaceReachable
  by_cases hb : p ∈ base
  · rw [if_pos hb]
  · rw [if_neg hb]
    dsimp only
    rw [List.any_eq_true]
    refine ⟨a, ha, ?_⟩
    have hne : a ≠ p := by
      intro he
      rw [he] at h1
      omega
    simp only [Rect.top, Rect.left, Rect.right] at h3 h4 ⊢
    simp only [Bool.and_eq_true, decide_eq_true_eq, Bool.not_eq_true',
      decide_eq_false_iff_not]
    exact ⟨⟨⟨⟨hne, h1⟩, by omega⟩, h3⟩, h4⟩

lemma spineSegmentStep_band (stage : ℕ) (acc : List Platform × ℤ × ℤ × List ℕ)
    (hacc : ∀ p ∈ acc.1, 260 ≤ p.rect.y ∧ p.rect.y ≤ 520) :
    ∀ p ∈ (spineSegmentStep stage acc).1, 260 ≤ p.rect.y ∧ p.rect.y ≤ 520 := by
  unfold spineSegmentStep
  dsimp only
  intro p hp
  rcases List.mem_append.mp hp with h | h
  · exact hacc p h
  · have hp2 : p = (maybeMakeBouncy
        { rect := ⟨acc.2.1 + (randInt 70 (120 + 20 * stage) acc.2.2.2).1,
            clampZ (acc.2.2.1 + (randInt (-80 - 10 * stage) (80 + 10 * stage)
              (randInt 160 (260 + 20 * stage)
                (randInt 70 (120 + 20 * stage) acc.2.2.2).2).2).1) 260 520,
            (randInt 160 (260 + 20 * stage)
              (randInt 70 (120 + 20 * stage) acc.2.2.2).2).1, 40⟩ }
        (baseBounceChance stage) (bounceMultiplier stage)
        (randInt (-80 - 10 * stage) (80 + 10 * stage)
          (randInt 160 (260 + 20 * stage)
            (randInt 70 (120 + 20 * stage) acc.2.2.2).2).2).2).1 := by
      simpa using h
    rw [hp2, maybeMakeBouncy_rect]
    exact clampZ_bounds _ 260 520 (by omega)

lemma spineLoop_band (stage : ℕ) :
    ∀ (n : ℕ) (acc : List Platform × ℤ × ℤ × List ℕ),
    (∀ p ∈ acc.1, 260 ≤ p.rect.y ∧ p.rect.y ≤ 520) →
    ∀ p ∈ (spineLoop stage n acc).1, 260 ≤ p.rect.y ∧ p.rect.y ≤ 520 := by
  intro n
  induction n with
  | zero => intro acc h; exact h
  | succ m ih => intro acc h; exact ih _ (spineSegmentStep_band stage acc h)

lemma spine_band (stage : ℕ) (s : List ℕ) :
    ∀ p ∈ (buildSpine stage s).basePlatforms, 260 ≤ p.rect.y ∧ p.rect.y ≤ 520 := by
  unfold buildSpine
  dsimp only
  intro p hp
  rcases List.mem_append.mp hp with h | h
  · refine spineLoop_band stage _ _ ?_ p h
    intro q hq
    have hq2 : q = { rect := ⟨0, 520, (randInt 220 280 s).1, 40⟩ } := by simpa using hq
    rw [hq2]
    exact ⟨by simp, by simp⟩
  · obtain rfl := List.mem_singleton.mp h
    dsimp only
    exact clampZ_bounds _ 260 520 (by omega)

lemma spine_ne_nil (stage : ℕ) (s : List ℕ) :
    (buildSpine stage s).basePlatforms ≠ [] := by
  unfold buildSpine
  dsimp only
  simp

lemma floatCandidate_anchored (stage : ℕ) (spine : List Platform) (parent : Platform)
    (s : List ℕ) (f : Platform)
    (h : (floatCandidate stage spine parent s).1 = some f) :
    parent.rect.y > f.rect.y ∧ parent.rect.y - f.rect.y ≤ 220 + 10 * (stage : ℤ) ∧
    ¬(parent.rect.right + 40 < f.rect.left) ∧ ¬(parent.rect.left - 40 > f.rect.right) := by
  unfold floatCandidate at h
  dsimp only at h
  split_ifs at h with h1 h2 h3 h4
  rw [Option.some.injEq] at h
  simp only [Rect.left, Rect.right] at h2 h3 h ⊢
  have hfw := randInt_bounds 90 140 (randUnit s).2 (by omega)
  have hx := randInt_bounds (parent.rect.x + 20)
    (parent.rect.x + parent.rect.w - (randInt 90 140 (randUnit s).2).1 - 20)
    (randInt 90 140 (randUnit s).2).2 (by omega)
  have hd := randInt_bounds 110 (170 + 10 * (stage : ℤ))
    (randInt (parent.rect.x + 20)
      (parent.rect.x + parent.rect.w - (randInt 90 140 (randUnit s).2).1 - 20)
      (randInt 90 140 (randUnit s).2).2).2 (by omega)
  rw [← h, maybeMakeBouncy_rect]
  simp only [Rect.left, Rect.right]
  unfold clampZ at h3 ⊢
  omega

lemma floatLoop_anchored (stage : ℕ) (spine : List Platform) :
    ∀ (parents : List Platform) (s : List ℕ) (f : Platform),
    f ∈ (floatLoop stage spine parents s).1 →
    ∃ parent ∈ parents, ∃ s2 : List ℕ,
      (floatCandidate stage spine parent s2).1 = some f := by
  intro parents
  induction parents with
  | nil =>
      intro s f h
      exact absurd h (by simp [floatLoop])
  | cons parent rest ih =>
      intro s f h
      have e : (floatLoop stage spine (parent :: rest) s).1 =
          (match (floatCandidate stage spine parent s).1 with
            | some fp =>
                fp :: (floatLoop stage spine rest (floatCandidate stage spine parent s).2).1
            | none =>
                (floatLoop stage spine rest (floatCandidate stage spine parent s).2).1) := rfl
      rw [e] at h
      rcases hc : (floatCandidate stage spine parent s).1 with _ | fp
      · rw [hc] at h
        obtain ⟨q, hq, s2, hs2⟩ := ih _ f h
        exact ⟨q, List.mem_cons_of_mem _ hq, s2, hs2⟩
      · rw [hc] at h
        rcases List.mem_cons.mp h with h2 | h2
        · exact ⟨parent, List.mem_cons_self _ _, s, by rw [hc, h2]⟩
        · obtain ⟨q, hq, s2, hs2⟩ := ih _ f h2
          exact ⟨q, List.mem_cons_of_mem _ hq, s2, hs2⟩

lemma buildFloating_anchored (stage : ℕ) (spine : List Platform) (s : List ℕ) :
    ∀ f ∈ (buildFloating stage spine s).1, ∃ a ∈ spine,
      a.rect.y > f.rect.y ∧ a.rect.y - f.rect.y ≤ 220 + 10 * (stage : ℤ) ∧
      ¬(a.rect.right + 40 < f.rect.left) ∧ ¬(a.rect.left - 40 > f.rect.right) := by
  intro f h
  obtain ⟨parent, hp, s2, hs2⟩ := floatLoop_anchored stage spine _ _ f h
  have hmem : parent ∈ spine := List.dropLast_subset _ hp |> List.drop_subset 1 _
  exact ⟨parent, hmem, floatCandidate_anchored stage spine parent s2 f hs2⟩

lemma createH_anchored (stage : ℕ) (base all : List Platform) (cr : ℤ)
    (movers : List Platform) (s : List ℕ) (p : Platform)
    (hband : ∀ q ∈ base, 260 ≤ q.rect.y)
    (h : (createHorizontalPlatform stage base all cr movers s).1 = some p) :
    ∃ a ∈ base, a.rect.y > p.rect.y ∧ a.rect.y - p.rect.y ≤ 220 + 10 * (stage : ℤ) ∧
      ¬(a.rect.right + 40 < p.rect.left) ∧ ¬(a.rect.left - 40 > p.rect.right) := by
  unfold createHorizontalPlatform at h
  dsimp only at h
  set CH := (if base.length > 2 then (base.drop 1).dropLast else base) with hCH
  have hsub : ∀ x ∈ CH, x ∈ base := by
    rw [hCH]
    split_ifs
    · exact fun x hx => List.drop_subset 1 base (List.dropLast_subset _ hx)
    · exact fun x hx => hx
  split_ifs at h with h1 h2 h3 h4 h5
  rw [Option.some.injEq] at h
  have hne : CH ≠ [] := by simpa [List.isEmpty_iff] using h1
  have hAmem : (randChoice CH dummyPlatform s).1 ∈ base :=
    hsub _ (randChoice_mem CH dummyPlatform s hne)
  have hAy := hband _ hAmem
  have hw := randInt_bounds 100 140 (randChoice CH dummyPlatform s).2 (by omega)
  have hx := randInt_bounds ((randChoice CH dummyPlatform s).1.rect.left + 20)
    ((randChoice CH dummyPlatform s).1.rect.right -
      (randInt 100 140 (randChoice CH dummyPlatform s).2).1 - 20)
    (randInt 100 140 (randChoice CH dummyPlatform s).2).2 (by omega)
  have hho := randInt_bounds 80 150
    (randInt ((randChoice CH dummyPlatform s).1.rect.left + 20)
      ((randChoice CH dummyPlatform s).1.rect.right -
        (randInt 100 140 (randChoice CH dummyPlatform s).2).1 - 20)
      (randInt 100 140 (randChoice CH dummyPlatform s).2).2).2 (by omega)
  refine ⟨(randChoice CH dummyPlatform s).1, hAmem, ?_⟩
  rw [← h, maybeMakeBouncy_rect]
  simp only [Rect.left, Rect.right] at *
  omega

lemma createV_anchored (stage : ℕ) (base all : List Platform) (cr : ℤ)
    (movers : List Platform) (s : List ℕ) (p : Platform)
    (h : (createVerticalPlatform stage base all cr movers s).1 = some p) :
    ∃ a ∈ base, a.rect.y > p.rect.y ∧ a.rect.y - p.rect.y ≤ 220 + 10 * (stage : ℤ) ∧
      ¬(a.rect.right + 40 < p.rect.left) ∧ ¬(a.rect.left - 40 > p.rect.right) := by
  unfold createVerticalPlatform at h
  dsimp only at h
  set CH := (if base.length > 2 then (base.drop 1).dropLast else base) with hCH
  have hsub : ∀ x ∈ CH, x ∈ base := by
    rw [hCH]
    split_ifs
    · exact fun x hx => List.drop_subset 1 base (List.dropLast_subset _ hx)
    · exact fun x hx => hx
  split_ifs at h with h1 h2 h3 h4 h5
  rw [Option.some.injEq] at h
  have hne : CH ≠ [] := by simpa [List.isEmpty_iff] using h1
  have hAmem : (randChoice CH dummyPlatform s).1 ∈ base :=
    hsub _ (randChoice_mem CH dummyPlatform s hne)
  have hw := randInt_bounds 90 130 (randChoice CH dummyPlatform s).2 (by omega)
  have hx := randInt_bounds ((randChoice CH dummyPlatform s).1.rect.left + 20)
    ((randChoice CH dummyPlatform s).1.rect.right -
      (randInt 90 130 (randChoice CH dummyPlatform s).2).1 - 20)
    (randInt 90 130 (randChoice CH dummyPlatform s).2).2 (by omega)
  have hd1 := randInt_bounds 160 220
    (randInt ((randChoice CH dummyPlatform s).1.rect.left + 20)
      ((randChoice CH dummyPlatform s).1.rect.right -
        (randInt 90 130 (randChoice CH dummyPlatform s).2).1 - 20)
      (randInt 90 130 (randChoice CH dummyPlatform s).2).2).2 (by omega)
  have hd2 := randInt_bounds 70 110
    (randInt 160 220
      (randInt ((randChoice CH dummyPlatform s).1.rect.left + 20)
        ((randChoice CH dummyPlatform s).1.rect.right -
          (randInt 90 130 (randChoice CH dummyPlatform s).2).1 - 20)
        (randInt 90 130 (randChoice CH dummyPlatform s).2).2).2).2 (by omega)
  have hsy := randInt_bounds
    (max (260 - 200) ((randChoice CH dummyPlatform s).1.rect.y -
      (randInt 160 220
        (randInt ((randChoice CH dummyPlatform s).1.rect.left + 20)
          ((randChoice CH dummyPlatform s).1.rect.right -
            (randInt 90 130 (randChoice CH dummyPlatform s).2).1 - 20)
          (randInt 90 130 (randChoice CH dummyPlatform s).2).2).2).1))
    (((randChoice CH dummyPlatform s).1.rect.y -
      (randInt 70 110
        (randInt 160 220
          (randInt ((randChoice CH dummyPlatform s).1.rect.left + 20)
            ((randChoice CH dummyPlatform s).1.rect.right -
              (randInt 90 130 (randChoice CH dummyPlatform s).2).1 - 20)
            (randInt 90 130 (randChoice CH dummyPlatform s).2).2).2).2).1) - 40)
    (randInt 70 110
      (randInt 160 220
        (randInt ((randChoice CH dummyPlatform s).1.rect.left + 20)
          ((randChoice CH dummyPlatform s).1.rect.right -
            (randInt 90 130 (randChoice CH dummyPlatform s).2).1 - 20)
          (randInt 90 130 (randChoice CH dummyPlatform s).2).2).2).2).2 (by omega)
  refine ⟨(randChoice CH dummyPlatform s).1, hAmem, ?_⟩
  rw [← h, maybeMakeBouncy_rect]
  simp only [Rect.left, Rect.right] at *
  omega

lemma tryAdd_forall (gen : List Platform → List ℕ → Option Platform × List ℕ)
    (P : Platform → Prop)
    (hgen : ∀ (movers : List Platform) (s : List ℕ) (p : Platform),
      (gen movers s).1 = some p → P p) :
    ∀ (n : ℕ) (movers : List Platform) (s : List ℕ),
    (∀ m ∈ movers, P m) → ∀ m ∈ (tryAdd gen n movers s).1, P m := by
  intro n
  induction n with
  | zero => intro movers s hm m h; exact hm m h
  | succ k ih =>
      intro movers s hm m h
      have e : (tryAdd gen (k + 1) movers s).1 =
          (match (gen movers s).1 with
            | none => tryAdd gen k movers (gen movers s).2
            | some plat =>
                if movers.any (platInflCollide plat.rect) then
                  tryAdd gen k movers (gen movers s).2
                else (movers ++ [plat], true, (gen movers s).2)).1 := rfl
      rw [e] at h
      rcases hc : (gen movers s).1 with _ | plat
      · rw [hc] at h
        exact ih movers _ hm m h
      · rw [hc] at h
        dsimp only at h
        by_cases hcol : movers.any (platInflCollide plat.rect)
        · rw [if_pos hcol] at h
          exact ih movers _ hm m h
        · rw [if_neg hcol] at h
          dsimp only at h
          rcases List.mem_append.mp h with h2 | h2
          · exact hm m h2
          · have : m = plat := by simpa using h2
            exact this ▸ hgen movers s plat hc

lemma moverWhileLoop_forall (stage : ℕ) (base all : List Platform) (cr target : ℤ)
    (P : Platform → Prop)
    (hH : ∀ (movers : List Platform) (s : List ℕ) (p : Platform),
      (createHorizontalPlatform stage base all cr movers s).1 = some p → P p)
    (hV : ∀ (movers : List Platform) (s : List ℕ) (p : Platform),
      (createVerticalPlatform stage base all cr movers s).1 = some p → P p) :
    ∀ (fuel : ℕ) (movers : List Platform) (s : List ℕ),
    (∀ m ∈ movers, P m) →
    ∀ m ∈ (moverWhileLoop stage base all cr target fuel movers s).1, P m := by
  intro fuel
  induction fuel with
  | zero => intro movers s hm m h; exact hm m h
  | succ k ih =>
      intro movers s hm m h
      have e : moverWhileLoop stage base all cr target (k + 1) movers s =
          (if (movers.length : ℤ) < target then
            moverWhileLoop stage base all cr target k
              (tryAdd (if (randUnit s).1 < mkRat 4 10 then
                  createVerticalPlatform stage base all cr
                else createHorizontalPlatform stage base all cr) 6 movers (randUnit s).2).1
              (tryAdd (if (randUnit s).1 < mkRat 4 10 then
                  createVerticalPlatform stage base all cr
                else createHorizontalPlatform stage base all cr) 6 movers
                (randUnit s).2).2.2
          else (movers, s)) := rfl
      rw [e] at h
      by_cases hlen : (movers.length : ℤ) < target
      · rw [if_pos hlen] at h
        refine ih _ _ ?_ m h
        by_cases hu : (randUnit s).1 < mkRat 4 10
        · rw [if_pos hu] at h ⊢
          exact tryAdd_forall _ P hV 6 movers (randUnit s).2 hm
        · rw [if_neg hu] at h ⊢
          exact tryAdd_forall _ P hH 6 movers (randUnit s).2 hm
      · rw [if_neg hlen] at h
        exact hm m h

lemma buildMovers_anchored (stage : ℕ) (base all : List Platform) (cr : ℤ)
    (s : List ℕ) (hband : ∀ q ∈ base, 260 ≤ q.rect.y) :
    ∀ m ∈ (buildMovers stage base all cr s).1, ∃ a ∈ base,
      a.rect.y > m.rect.y ∧ a.rect.y - m.rect.y ≤ 220 + 10 * (stage : ℤ) ∧
      ¬(a.rect.right + 40 < m.rect.left) ∧ ¬(a.rect.left - 40 > m.rect.right) := by
  have hH := fun movers s p h => createH_anchored stage base all cr movers s p hband h
  have hV := fun movers s p h => createV_anchored stage base all cr movers s p h
  unfold buildMovers
  dsimp only
  intro m hm
  refine moverWhileLoop_forall stage base all cr _ _ hH hV _ _ _ ?_ m hm
  by_cases hst : stage ≥ 1
  · rw [if_pos hst]
    dsimp only
    refine tryAdd_forall _ _ hV 6 _ _ ?_
    exact tryAdd_forall _ _ hH 6 [] s (by simp)
  · rw [if_neg hst]
    dsimp only
    exact tryAdd_forall _ _ hH 6 [] s (by simp)

lemma pickOrbSurface_mem (pwm : List Platform) (solidRects : List Rect) :
    ∀ (cands : List Platform) (p : Platform),
    pickOrbSurface pwm solidRects cands = some p → p ∈ cands := by
  intro cands
  induction cands with
  | nil => intro p h; exact absurd h (by simp [pickOrbSurface])
  | cons c rest ih =>
      intro p h
      unfold pickOrbSurface at h
      dsimp only at h
      split_ifs at h with hc
      · have : c = p := by simpa using h
        exact this ▸ List.mem_cons_self c rest
      · exact List.mem_cons_of_mem _ (ih p h)

lemma pickShieldSurface_mem (pwm : List Platform) (solidRects : List Rect)
    (orbRects : List Rect) :
    ∀ (cands : List Platform) (p : Platform),
    pickShieldSurface pwm solidRects orbRects cands = some p → p ∈ cands := by
  intro cands
  induction cands with
  | nil => intro p h; exact absurd h (by simp [pickShieldSurface])
  | cons c rest ih =>
      intro p h
      unfold pickShieldSurface at h
      dsimp only at h
      split_ifs at h with hc
      · have : c = p := by simpa using h
        exact this ▸ List.mem_cons_self c rest
      · exact List.mem_cons_of_mem _ (ih p h)

lemma pickSwordSurface_mem (pwm : List Platform) (solidRects : List Rect) :
    ∀ (cands : List Platform) (p : Platform),
    pickSwordSurface pwm solidRects cands = some p → p ∈ cands := by
  intro cands
  induction cands with
  | nil => intro p h; exact absurd h (by simp [pickSwordSurface])
  | cons c rest ih =>
      intro p h
      unfold pickSwordSurface at h
      dsimp only at h
      split_ifs at h with hc
      · have : c = p := by simpa using h
        exact this ▸ List.mem_cons_self c rest
      · exact List.mem_cons_of_mem _ (ih p h)

lemma coinSurfacePool_subset (base pwm : List Platform) (sr : List Rect) (stage : ℕ) :
    ∀ x ∈ coinSurfacePool base pwm sr stage, x ∈ pwm := by
  unfold coinSurfacePool
  dsimp only
  intro x hx
  split_ifs at hx with h1 h2
  · exact hx
  · exact List.mem_of_mem_filter hx
  · exact List.mem_of_mem_filter hx

lemma getD_mem_of_lt (l : List Platform) (d : Platform) (i : ℕ) (hi : i < l.length) :
    l.getD i d ∈ l := by
  rw [List.getD_eq_getElem l d hi]
  exact List.getElem_mem hi

lemma attachCoins_rects : ∀ (rects : List Rect) (g : List ℕ),
    ((attachCoins rects g).1).map (fun c => c.rect) = rects := by
  intro rects
  induction rects with
  | nil => intro g; rfl
  | cons r rest ih =>
      intro g
      have h : attachCoins (r :: rest) g =
          (({ rect := r, pulse := (randUnit g).1 * MATH_TAU } : Coin) ::
             (attachCoins rest (randUnit g).2).1,
           (attachCoins rest (randUnit g).2).2) := rfl
      rw [h]
      dsimp only [List.map_cons]
      rw [ih]

lemma attachPowerUps_mem_rect {R : List Rect} {gg : List ℕ} {pu : PowerUp}
    (h : pu ∈ (attachPowerUps R gg).1) : pu.rect ∈ R := by
  rw [← attachPowerUps_rects R gg]
  exact List.mem_map_of_mem _ h

lemma attachCoins_mem_rect {R : List Rect} {gg : List ℕ} {c : Coin}
    (h : c ∈ (attachCoins R gg).1) : c.rect ∈ R := by
  rw [← attachCoins_rects R gg]
  exact List.mem_map_of_mem _ h

/-- C5: in every blueprint produced by the standard level generator,
every placed coin and every placed power-up (double-jump orb, sword,
shield) sits on a supporting surface drawn from the placed platform set
(platforms plus kinematic platforms), and every surface of that set
satisfies the is_surface_reachable predicate — the original spine
platforms directly, the floating platforms and kinematic platforms
through the spine anchor they were constructed over. -/
theorem collectible_reachability_contract (stage theme : ℕ) (s g : List ℕ) :
    (∀ p ∈ (generateLevelFull stage theme s g).blueprint.platforms ++
        (generateLevelFull stage theme s g).blueprint.movingPlatforms,
      isSurfaceReachable (generateLevelFull stage theme s g).basePlatforms
        ((generateLevelFull stage theme s g).blueprint.platforms ++
          (generateLevelFull stage theme s g).blueprint.movingPlatforms) stage p = true) ∧
    (∀ c ∈ (generateLevelFull stage theme s g).blueprint.coins,
      ∃ surf ∈ (generateLevelFull stage theme s g).blueprint.platforms ++
          (generateLevelFull stage theme s g).blueprint.movingPlatforms,
        c.rect = coinRectFor surf.rect) ∧
    (∀ pu ∈ (generateLevelFull stage theme s g).blueprint.doubleJump,
      ∃ surf ∈ (generateLevelFull stage theme s g).blueprint.platforms ++
          (generateLevelFull stage theme s g).blueprint.movingPlatforms,
        pu.rect = Rect.mk (surf.rect.centerx - 18) (surf.rect.top - 60) 36 36) ∧
    (∀ pu ∈ (generateLevelFull stage theme s g).blueprint.swords,
      ∃ surf ∈ (generateLevelFull stage theme s g).blueprint.platforms ++
          (generateLevelFull stage theme s g).blueprint.movingPlatforms,
        pu.rect = Rect.mk (surf.rect.centerx - 16) (surf.rect.top - 56) 32 32) ∧
    (∀ pu ∈ (generateLevelFull stage theme s g).blueprint.shields,
      ∃ surf ∈ (generateLevelFull stage theme s g).blueprint.platforms ++
          (generateLevelFull stage theme s g).blueprint.movingPlatforms,
        pu.rect = Rect.mk (surf.rect.centerx - 20) (surf.rect.top - 62) 40 40) := by
  unfold generateLevelFull
  dsimp only
  generalize hsp : buildSpine stage s = sp
  generalize hba : sp.basePlatforms = base
  generalize hfl : buildFloating stage base sp.stream = FL
  generalize hpl : base ++ FL.1 = platforms
  generalize hmv : buildMovers stage base platforms sp.currentRight FL.2 = MV
  generalize hpw : platforms ++ MV.1 = pwm
  generalize hen : enemyLoop stage pwm (platforms.drop 1).dropLast MV.2 = EN
  generalize hsr : pwm.map (fun x => x.rect) = solidR
  generalize hpool : coinSurfacePool base pwm solidR stage = pool
  generalize hsh1 : shuffleList pool EN.2 = SH1
  generalize hdd : randInt 5 6 SH1.2 = DD
  generalize hcs : coinSurfaces pwm SH1.1 (min (SH1.1.length : ℤ) DD.1).toNat = CS
  generalize hsc :
    shuffleList (((base.drop 1).dropLast).filter fun p => decide (p.rect.w ≥ 120)) DD.2 = SHC
  generalize hshoot : shooterLoop solidR (min (stage + 1) 3) SHC.1 0 SHC.2
    (attachCoins (CS.map fun p => coinRectFor p.rect) g).2 = SHO
  generalize horb : shuffleList (pwm.filter fun p =>
    hasCoinClearance solidR p.rect && isSurfaceReachable base pwm stage p) SHO.2.1 = ORB
  have hband : ∀ p ∈ base, 260 ≤ p.rect.y ∧ p.rect.y ≤ 520 := by
    have h := spine_band stage s
    rw [hsp, hba] at h
    exact h
  have hne : base ≠ [] := by
    have h := spine_ne_nil stage s
    rw [hsp, hba] at h
    exact h
  have hFLanch : ∀ f ∈ FL.1, ∃ a ∈ base,
      a.rect.y > f.rect.y ∧ a.rect.y - f.rect.y ≤ 220 + 10 * (stage : ℤ) ∧
      ¬(a.rect.right + 40 < f.rect.left) ∧ ¬(a.rect.left - 40 > f.rect.right) := by
    have h := buildFloating_anchored stage base sp.stream
    rw [hfl] at h
    exact h
  have hMVanch : ∀ m ∈ MV.1, ∃ a ∈ base,
      a.rect.y > m.rect.y ∧ a.rect.y - m.rect.y ≤ 220 + 10 * (stage : ℤ) ∧
      ¬(a.rect.right + 40 < m.rect.left) ∧ ¬(a.rect.left - 40 > m.rect.right) := by
    have h := buildMovers_anchored stage base platforms sp.currentRight FL.2
      (fun q hq => (hband q hq).1)
    rw [hmv] at h
    exact h
  have hbase_pwm : ∀ q ∈ base, q ∈ pwm := by
    intro q hq
    rw [← hpw, ← hpl]
    exact List.mem_append_left _ (List.mem_append_left _ hq)
  have hplat_pwm : ∀ q ∈ platforms, q ∈ pwm := by
    intro q hq
    rw [← hpw]
    exact List.mem_append_left _ hq
  have hreach : ∀ p ∈ pwm, isSurfaceReachable base pwm stage p = true := by
    intro p hp
    rw [← hpw] at hp
    rcases List.mem_append.mp hp with hp1 | hpm
    · rw [← hpl] at hp1
      rcases List.mem_append.mp hp1 with hb | hf
      · exact reach_of_base base pwm stage p hb
      · obtain ⟨a, ha, g1, g2, g3, g4⟩ := hFLanch p hf
        exact reach_of_anchor base pwm stage p a (hbase_pwm a ha) g1 g2 g3 g4
    · obtain ⟨a, ha, g1, g2, g3, g4⟩ := hMVanch p hpm
      exact reach_of_anchor base pwm stage p a (hbase_pwm a ha) g1 g2 g3 g4
  refine ⟨hreach, ?_, ?_, ?_, ?_⟩
  · -- coins
    intro c hc
    have h1 : c.rect ∈ List.map (fun p => coinRectFor p.rect) CS :=
      attachCoins_mem_rect hc
    obtain ⟨surf, hsurf, heq⟩ := List.mem_map.mp h1
    refine ⟨surf, ?_, heq.symm⟩
    rw [← hcs] at hsurf
    unfold coinSurfaces at hsurf
    have h3 : surf ∈ SH1.1 := List.take_subset _ _ (List.mem_of_mem_filter hsurf)
    rw [← hsh1] at h3
    have h4 := shuffleList_mem pool EN.2 h3
    rw [← hpool] at h4
    exact coinSurfacePool_subset base pwm solidR stage surf h4
  · -- double-jump orbs
    intro pu hpu
    rcases hpo : pickOrbSurface pwm solidR ORB.1 with _ | q
    · rw [hpo] at hpu
      dsimp only at hpu
      have h1 := attachPowerUps_mem_rect hpu
      split_ifs at h1 with hh
      · have heq : pu.rect = Rect.mk
            ((platforms.getD (platforms.length / 2) dummyPlatform).rect.centerx - 18)
            ((platforms.getD (platforms.length / 2) dummyPlatform).rect.top - 60) 36 36 := by
          simpa using h1
        refine ⟨platforms.getD (platforms.length / 2) dummyPlatform, ?_, heq⟩
        have hlen : 0 < platforms.length := by
          rw [← hpl]
          simp only [List.length_append]
          have := List.length_pos.mpr hne
          omega
        exact hplat_pwm _ (getD_mem_of_lt platforms dummyPlatform _
          (Nat.div_lt_self hlen (by omega)))
      · simp at h1
    · rw [hpo] at hpu
      dsimp only at hpu
      have h1 := attachPowerUps_mem_rect hpu
      have heq : pu.rect = Rect.mk (q.rect.centerx - 18) (q.rect.top - 60) 36 36 := by
        simpa using h1
      refine ⟨q, ?_, heq⟩
      have h3 := pickOrbSurface_mem pwm solidR ORB.1 q hpo
      rw [← horb] at h3
      exact List.mem_of_mem_filter (shuffleList_mem _ _ h3)
  · -- swords
    intro pu hpu
    rcases hpsw : pickSwordSurface pwm solidR (shuffleList (pwm.filter fun p =>
        hasCoinClearance solidR p.rect && isSurfaceReachable base pwm stage p)
        (shuffleList (pwm.filter fun p => hasCoinClearance solidR p.rect) ORB.2).2).1
        with _ | q
    · rw [hpsw] at hpu
      dsimp only at hpu
      have h1 := attachPowerUps_mem_rect hpu
      simp at h1
    · rw [hpsw] at hpu
      dsimp only at hpu
      have h1 := attachPowerUps_mem_rect hpu
      have heq : pu.rect = Rect.mk (q.rect.centerx - 16) (q.rect.top - 56) 32 32 := by
        simpa using h1
      refine ⟨q, ?_, heq⟩
      have h3 := pickSwordSurface_mem pwm solidR _ q hpsw
      exact List.mem_of_mem_filter (shuffleList_mem _ _ h3)
  · -- shields
    intro pu hpu
    rcases hpo : pickOrbSurface pwm solidR ORB.1 with _ | q0
    · rw [hpo] at hpu
      dsimp only at hpu
      by_cases hh : (!hasLowHeadroom pwm
          (platforms.getD (platforms.length / 2) dummyPlatform) 130) = true
      · rw [if_pos hh] at hpu
        rcases hpsh : pickShieldSurface pwm solidR
            (List.map (fun x => x.rect) (attachPowerUps
              [Rect.mk ((platforms.getD (platforms.length / 2)
                  dummyPlatform).rect.centerx - 18)
                ((platforms.getD (platforms.length / 2) dummyPlatform).rect.top - 60) 36 36]
              SHO.2.2).1)
            (shuffleList (pwm.filter fun p => hasCoinClearance solidR p.rect) ORB.2).1
            with _ | q
        · rw [hpsh] at hpu
          dsimp only at hpu
          have h1 := attachPowerUps_mem_rect hpu
          simp at h1
        · rw [hpsh] at hpu
          dsimp only at hpu
          have h1 := attachPowerUps_mem_rect hpu
          have heq : pu.rect = Rect.mk (q.rect.centerx - 20) (q.rect.top - 62) 40 40 := by
            simpa using h1
          refine ⟨q, ?_, heq⟩
          have h3 := pickShieldSurface_mem pwm solidR _ _ q hpsh
          exact List.mem_of_mem_filter (shuffleList_mem _ _ h3)
      · rw [if_neg hh] at hpu
        rcases hpsh : pickShieldSurface pwm solidR
            (List.map (fun x => x.rect) (attachPowerUps [] SHO.2.2).1)
            (shuffleList (pwm.filter fun p => hasCoinClearance solidR p.rect) ORB.2).1
            with _ | q
        · rw [hpsh] at hpu
          dsimp only at hpu
          have h1 := attachPowerUps_mem_rect hpu
          simp at h1
        · rw [hpsh] at hpu
          dsimp only at hpu
          have h1 := attachPowerUps_mem_rect hpu
          have heq : pu.rect = Rect.mk (q.rect.centerx - 20) (q.rect.top - 62) 40 40 := by
            simpa using h1
          refine ⟨q, ?_, heq⟩
          have h3 := pickShieldSurface_mem pwm solidR _ _ q hpsh
          exact List.mem_of_mem_filter (shuffleList_mem _ _ h3)
    · rw [hpo] at hpu
      dsimp only at hpu
      rcases hpsh : pickShieldSurface pwm solidR
          (List.map (fun x => x.rect) (attachPowerUps
            [Rect.mk (q0.rect.centerx - 18) (q0.rect.top - 60) 36 36] SHO.2.2).1)
          (shuffleList (pwm.filter fun p => hasCoinClearance solidR p.rect) ORB.2).1
          with _ | q
      · rw [hpsh] at hpu
        dsimp only at hpu
        have h1 := attachPowerUps_mem_rect hpu
        simp at h1
      · rw [hpsh] at hpu
        dsimp only at hpu
        have h1 := attachPowerUps_mem_rect hpu
        have heq : pu.rect = Rect.mk (q.rect.centerx - 20) (q.rect.top - 62) 40 40 := by
          simpa using h1
        refine ⟨q, ?_, heq⟩
        have h3 := pickShieldSurface_mem pwm solidR _ _ q hpsh
        exact List.mem_of_mem_filter (shuffleList_mem _ _ h3)

end GameMario
